import Mathlib

/-!
Verification development for the varsense CSS-variable analyzer.

Strings are modelled as lists of Unicode code points (`Str := List Nat`),
so that character-class tests become decidable arithmetic.  JavaScript's
`String.prototype.toLowerCase`/`trim` are modelled on the ASCII range,
which is the range the analyzer's regular expressions inspect.  JavaScript
numbers are modelled exactly: integers as `Nat`/`Int` and fractional
values as `Rat`, with an explicit `nan` constructor mirroring `NaN`
(the analyzer only ever compares such values with `< 1`, where the exact
rational and the IEEE double agree on every value the code produces).
-/

namespace VarSense

/-- A source string, as the list of its character code points. -/
abbrev Str := List Nat

/-- Code points of a Lean string literal, for concrete test inputs. -/
def codes (s : String) : Str := s.data.map Char.toNat

/-- ASCII lowercasing of one code point, modelling `toLowerCase`. -/
def lowerCode (c : Nat) : Nat := if 65 ≤ c ∧ c ≤ 90 then c + 32 else c

/-- Lowercasing of a whole string. -/
def lowerStr (l : Str) : Str := l.map lowerCode

/-- Whitespace test for the regex class matching ASCII whitespace. -/
def isWs (c : Nat) : Bool := c == 32 || c == 9 || c == 10 || c == 11 || c == 12 || c == 13

/-- Decimal digit test, the regex class of digits. -/
def isDigit (c : Nat) : Bool := 48 ≤ c && c ≤ 57

/-- Hexadecimal digit of either case. -/
def isHexDig (c : Nat) : Bool := isDigit c || (97 ≤ c && c ≤ 102) || (65 ≤ c && c ≤ 70)

/-- Word character or hyphen, the class used for variable names. -/
def isWordDash (c : Nat) : Bool :=
  isDigit c || (97 ≤ c && c ≤ 122) || (65 ≤ c && c ≤ 90) || c == 95 || c == 45

/-- Strip whitespace from both ends, modelling `trim`. -/
def trimStr (l : Str) : Str := ((l.dropWhile isWs).reverse.dropWhile isWs).reverse

/-- Substring search: does `pat` occur anywhere in `l`? -/
def containsSub (l pat : Str) : Bool :=
  match l with
  | [] => pat == []
  | _ :: rest => pat.isPrefixOf l || containsSub rest pat

/-- Numeric value of a list of decimal digits, as `parseInt` base 10. -/
def digitsToNat (l : Str) : Nat := l.foldl (fun n d => 10 * n + (d - 48)) 0

/-- Value of a single hexadecimal digit code point. -/
def hexDigitVal (c : Nat) : Nat := if c ≤ 57 then c - 48 else if c ≤ 70 then c - 55 else c - 87

/-- Hexadecimal value of a two-digit pair, as `parseInt(s, 16)`. -/
def pairVal (a b : Nat) : Nat := 16 * hexDigitVal a + hexDigitVal b

/-- Lowercase hexadecimal code point of a value below 16. -/
def hexDigitCode (d : Nat) : Nat := if d < 10 then 48 + d else 87 + d

/-- A JavaScript number that may be `NaN` (produced by `parseFloat`). -/
inductive JsNum where
  | nan : JsNum
  | val : ℚ → JsNum
deriving DecidableEq, Repr

/-- The comparison `a < 1` on JavaScript numbers; false on `NaN`. -/
def JsNum.ltUno : JsNum → Bool
  | .nan => false
  | .val q => decide (q < 1)

/-- Rounding as `Math.round`: half-up, toward positive infinity. -/
def jsRound (q : ℚ) : ℤ := ⌊q + 1 / 2⌋

/-- Clamping to the byte range, as `Math.max(0, Math.min(255, n))`. -/
def clamp255 (n : ℤ) : ℕ := (max 0 (min 255 n)).toNat

example : codes "var(" = [118, 97, 114, 40] := by decide
example : trimStr (codes "  ab ") = codes "ab" := by decide
example : lowerStr (codes "RGB(") = codes "rgb(" := by decide
example : containsSub (codes "calc(var(--x))") (codes "var(") = true := by decide
section
attribute [local semireducible] Rat.add Rat.mul Rat.inv Rat.sub
example : jsRound (51 / 10) = 5 := by decide
example : JsNum.ltUno (.val (1 / 2)) = true := by decide
end

/-! ## Color model (`colorUtils.ts`)

The regular-expression patterns of `COLOR_PATTERNS` are anchored at both
ends, so each is embedded as a total matcher over the code-point list.
Case-insensitive patterns are matched by lowercasing the input first,
which is equivalent because every literal in those patterns is lowercase
and the character classes involved are closed under case.
-/

/-- The `NAMED_COLORS` table of the source, name to hex literal. -/
def NAMED_COLORS : List (Str × Str) := [
  (codes "aliceblue", codes "#f0f8ff"),
  (codes "antiquewhite", codes "#faebd7"),
  (codes "aqua", codes "#00ffff"),
  (codes "aquamarine", codes "#7fffd4"),
  (codes "azure", codes "#f0ffff"),
  (codes "beige", codes "#f5f5dc"),
  (codes "bisque", codes "#ffe4c4"),
  (codes "black", codes "#000000"),
  (codes "blanchedalmond", codes "#ffebcd"),
  (codes "blue", codes "#0000ff"),
  (codes "blueviolet", codes "#8a2be2"),
  (codes "brown", codes "#a52a2a"),
  (codes "burlywood", codes "#deb887"),
  (codes "cadetblue", codes "#5f9ea0"),
  (codes "chartreuse", codes "#7fff00"),
  (codes "chocolate", codes "#d2691e"),
  (codes "coral", codes "#ff7f50"),
  (codes "cornflowerblue", codes "#6495ed"),
  (codes "cornsilk", codes "#fff8dc"),
  (codes "crimson", codes "#dc143c"),
  (codes "cyan", codes "#00ffff"),
  (codes "darkblue", codes "#00008b"),
  (codes "darkcyan", codes "#008b8b"),
  (codes "darkgoldenrod", codes "#b8860b"),
  (codes "darkgray", codes "#a9a9a9"),
  (codes "darkgreen", codes "#006400"),
  (codes "darkgrey", codes "#a9a9a9"),
  (codes "darkkhaki", codes "#bdb76b"),
  (codes "darkmagenta", codes "#8b008b"),
  (codes "darkolivegreen", codes "#556b2f"),
  (codes "darkorange", codes "#ff8c00"),
  (codes "darkorchid", codes "#9932cc"),
  (codes "darkred", codes "#8b0000"),
  (codes "darksalmon", codes "#e9967a"),
  (codes "darkseagreen", codes "#8fbc8f"),
  (codes "darkslateblue", codes "#483d8b"),
  (codes "darkslategray", codes "#2f4f4f"),
  (codes "darkslategrey", codes "#2f4f4f"),
  (codes "darkturquoise", codes "#00ced1"),
  (codes "darkviolet", codes "#9400d3"),
  (codes "deeppink", codes "#ff1493"),
  (codes "deepskyblue", codes "#00bfff"),
  (codes "dimgray", codes "#696969"),
  (codes "dimgrey", codes "#696969"),
  (codes "dodgerblue", codes "#1e90ff"),
  (codes "firebrick", codes "#b22222"),
  (codes "floralwhite", codes "#fffaf0"),
  (codes "forestgreen", codes "#228b22"),
  (codes "fuchsia", codes "#ff00ff"),
  (codes "gainsboro", codes "#dcdcdc"),
  (codes "ghostwhite", codes "#f8f8ff"),
  (codes "gold", codes "#ffd700"),
  (codes "goldenrod", codes "#daa520"),
  (codes "gray", codes "#808080"),
  (codes "green", codes "#008000"),
  (codes "greenyellow", codes "#adff2f"),
  (codes "grey", codes "#808080"),
  (codes "honeydew", codes "#f0fff0"),
  (codes "hotpink", codes "#ff69b4"),
  (codes "indianred", codes "#cd5c5c"),
  (codes "indigo", codes "#4b0082"),
  (codes "ivory", codes "#fffff0"),
  (codes "khaki", codes "#f0e68c"),
  (codes "lavender", codes "#e6e6fa"),
  (codes "lavenderblush", codes "#fff0f5"),
  (codes "lawngreen", codes "#7cfc00"),
  (codes "lemonchiffon", codes "#fffacd"),
  (codes "lightblue", codes "#add8e6"),
  (codes "lightcoral", codes "#f08080"),
  (codes "lightcyan", codes "#e0ffff"),
  (codes "lightgoldenrodyellow", codes "#fafad2"),
  (codes "lightgray", codes "#d3d3d3"),
  (codes "lightgreen", codes "#90ee90"),
  (codes "lightgrey", codes "#d3d3d3"),
  (codes "lightpink", codes "#ffb6c1"),
  (codes "lightsalmon", codes "#ffa07a"),
  (codes "lightseagreen", codes "#20b2aa"),
  (codes "lightskyblue", codes "#87cefa"),
  (codes "lightslategray", codes "#778899"),
  (codes "lightslategrey", codes "#778899"),
  (codes "lightsteelblue", codes "#b0c4de"),
  (codes "lightyellow", codes "#ffffe0"),
  (codes "lime", codes "#00ff00"),
  (codes "limegreen", codes "#32cd32"),
  (codes "linen", codes "#faf0e6"),
  (codes "magenta", codes "#ff00ff"),
  (codes "maroon", codes "#800000"),
  (codes "mediumaquamarine", codes "#66cdaa"),
  (codes "mediumblue", codes "#0000cd"),
  (codes "mediumorchid", codes "#ba55d3"),
  (codes "mediumpurple", codes "#9370db"),
  (codes "mediumseagreen", codes "#3cb371"),
  (codes "mediumslateblue", codes "#7b68ee"),
  (codes "mediumspringgreen", codes "#00fa9a"),
  (codes "mediumturquoise", codes "#48d1cc"),
  (codes "mediumvioletred", codes "#c71585"),
  (codes "midnightblue", codes "#191970"),
  (codes "mintcream", codes "#f5fffa"),
  (codes "mistyrose", codes "#ffe4e1"),
  (codes "moccasin", codes "#ffe4b5"),
  (codes "navajowhite", codes "#ffdead"),
  (codes "navy", codes "#000080"),
  (codes "oldlace", codes "#fdf5e6"),
  (codes "olive", codes "#808000"),
  (codes "olivedrab", codes "#6b8e23"),
  (codes "orange", codes "#ffa500"),
  (codes "orangered", codes "#ff4500"),
  (codes "orchid", codes "#da70d6"),
  (codes "palegoldenrod", codes "#eee8aa"),
  (codes "palegreen", codes "#98fb98"),
  (codes "paleturquoise", codes "#afeeee"),
  (codes "palevioletred", codes "#db7093"),
  (codes "papayawhip", codes "#ffefd5"),
  (codes "peachpuff", codes "#ffdab9"),
  (codes "peru", codes "#cd853f"),
  (codes "pink", codes "#ffc0cb"),
  (codes "plum", codes "#dda0dd"),
  (codes "powderblue", codes "#b0e0e6"),
  (codes "purple", codes "#800080"),
  (codes "rebeccapurple", codes "#663399"),
  (codes "red", codes "#ff0000"),
  (codes "rosybrown", codes "#bc8f8f"),
  (codes "royalblue", codes "#4169e1"),
  (codes "saddlebrown", codes "#8b4513"),
  (codes "salmon", codes "#fa8072"),
  (codes "sandybrown", codes "#f4a460"),
  (codes "seagreen", codes "#2e8b57"),
  (codes "seashell", codes "#fff5ee"),
  (codes "sienna", codes "#a0522d"),
  (codes "silver", codes "#c0c0c0"),
  (codes "skyblue", codes "#87ceeb"),
  (codes "slateblue", codes "#6a5acd"),
  (codes "slategray", codes "#708090"),
  (codes "slategrey", codes "#708090"),
  (codes "snow", codes "#fffafa"),
  (codes "springgreen", codes "#00ff7f"),
  (codes "steelblue", codes "#4682b4"),
  (codes "tan", codes "#d2b48c"),
  (codes "teal", codes "#008080"),
  (codes "thistle", codes "#d8bfd8"),
  (codes "tomato", codes "#ff6347"),
  (codes "turquoise", codes "#40e0d0"),
  (codes "violet", codes "#ee82ee"),
  (codes "wheat", codes "#f5deb3"),
  (codes "white", codes "#ffffff"),
  (codes "whitesmoke", codes "#f5f5f5"),
  (codes "yellow", codes "#ffff00"),
  (codes "yellowgreen", codes "#9acd32"),
  (codes "transparent", codes "transparent")
]

/-- Lookup in the named-color table, as `NAMED_COLORS[valorLimpio]`. -/
def buscarNombrado (vl : Str) : Option Str :=
  (NAMED_COLORS.find? (fun p => p.1 == vl)).map (fun p => p.2)

/-- Matcher for `hex3`, a hash sign and exactly three hex digits. -/
def hex3Exec : Str → Option (Nat × Nat × Nat)
  | [35, a, b, c] => if isHexDig a && isHexDig b && isHexDig c then some (a, b, c) else none
  | _ => none

/-- Matcher for `hex4`, a hash sign and exactly four hex digits. -/
def hex4Exec : Str → Option (Nat × Nat × Nat × Nat)
  | [35, a, b, c, d] =>
    if isHexDig a && isHexDig b && isHexDig c && isHexDig d then some (a, b, c, d) else none
  | _ => none

/-- Matcher for `hex6`, a hash sign and exactly six hex digits. -/
def hex6Exec : Str → Option (Nat × Nat × Nat × Nat × Nat × Nat)
  | [35, a, b, c, d, e, f] =>
    if isHexDig a && isHexDig b && isHexDig c && isHexDig d && isHexDig e && isHexDig f then
      some (a, b, c, d, e, f)
    else none
  | _ => none

/-- Matcher for `hex8`, a hash sign and exactly eight hex digits. -/
def hex8Exec : Str → Option (Nat × Nat × Nat × Nat × Nat × Nat × Nat × Nat)
  | [35, a, b, c, d, e, f, g, h] =>
    if isHexDig a && isHexDig b && isHexDig c && isHexDig d && isHexDig e && isHexDig f &&
        isHexDig g && isHexDig h then
      some (a, b, c, d, e, f, g, h)
    else none
  | _ => none

/-- Greedy one-to-three digit capture, the `(\d{1,3})` group: the maximal
digit run must have length 1 to 3, since a longer run cannot be split by
backtracking (the character after the group is never a digit). -/
def num13 (l : Str) : Option (Nat × Str) :=
  let ds := l.takeWhile isDigit
  if ds.length = 0 ∨ 3 < ds.length then none
  else some (digitsToNat ds, l.dropWhile isDigit)

/-- Skip a possibly empty whitespace run, the `\s*` element. -/
def skipWs (l : Str) : Str := l.dropWhile isWs

/-- Skip a nonempty whitespace run, the `\s+` element. -/
def skipWs1 (l : Str) : Option Str :=
  match l with
  | [] => none
  | x :: _ => if isWs x then some (skipWs l) else none

/-- Expect one literal code point at the head of the input. -/
def expectCp (c : Nat) : Str → Option Str
  | [] => none
  | x :: r => if x = c then some r else none

/-- Greedy capture for `[\d.]+`: the maximal run of digits and dots,
required nonempty. -/
def tomaFloatCrudo (l : Str) : Option (Str × Str) :=
  let ds := l.takeWhile (fun c => isDigit c || c == 46)
  if ds.length = 0 then none
  else some (ds, l.dropWhile (fun c => isDigit c || c == 46))

/-- Core matcher for the classic `rgb` pattern (input already lowercased). -/
def rgbCore : Str → Option (Nat × Nat × Nat)
  | 114 :: 103 :: 98 :: 40 :: r0 => do
    let (n1, r1) ← num13 (skipWs r0)
    let r2 ← expectCp 44 (skipWs r1)
    let (n2, r3) ← num13 (skipWs r2)
    let r4 ← expectCp 44 (skipWs r3)
    let (n3, r5) ← num13 (skipWs r4)
    let r6 ← expectCp 41 (skipWs r5)
    if r6 = [] then some (n1, n2, n3) else none
  | _ => none

/-- Core matcher for the classic `rgba` pattern (input already lowercased). -/
def rgbaCore : Str → Option (Nat × Nat × Nat × Str)
  | 114 :: 103 :: 98 :: 97 :: 40 :: r0 => do
    let (n1, r1) ← num13 (skipWs r0)
    let r2 ← expectCp 44 (skipWs r1)
    let (n2, r3) ← num13 (skipWs r2)
    let r4 ← expectCp 44 (skipWs r3)
    let (n3, r5) ← num13 (skipWs r4)
    let r6 ← expectCp 44 (skipWs r5)
    let (al, r7) ← tomaFloatCrudo (skipWs r6)
    let r8 ← expectCp 41 (skipWs r7)
    if r8 = [] then some (n1, n2, n3, al) else none
  | _ => none

/-- Shared tail of the modern patterns: an optional `/ alpha` group, then
closing parenthesis and end of input.  The alpha capture keeps a trailing
percent sign, as the `([\d.]+%?)` group does. -/
def colaModerna (l : Str) : Option (Option Str) :=
  match skipWs l with
  | 47 :: r0 => do
    let (al, r1) ← tomaFloatCrudo (skipWs r0)
    let (al2, r2) := match r1 with
      | 37 :: r2 => (al ++ [37], r2)
      | _ => (al, r1)
    let r3 ← expectCp 41 (skipWs r2)
    if r3 = [] then some (some al2) else none
  | r => do
    let r1 ← expectCp 41 r
    if r1 = [] then some none else none

/-- Core matcher for the modern space-separated `rgb` pattern. -/
def rgbModernCore : Str → Option (Nat × Nat × Nat × Option Str)
  | 114 :: 103 :: 98 :: 40 :: r0 => do
    let (n1, r1) ← num13 (skipWs r0)
    let (n2, r2) ← num13 (← skipWs1 r1)
    let (n3, r3) ← num13 (← skipWs1 r2)
    let al ← colaModerna r3
    some (n1, n2, n3, al)
  | _ => none

/-- Core matcher for the classic `hsl` pattern. -/
def hslCore : Str → Option (Nat × Nat × Nat)
  | 104 :: 115 :: 108 :: 40 :: r0 => do
    let (n1, r1) ← num13 (skipWs r0)
    let r2 ← expectCp 44 (skipWs r1)
    let (n2, r3) ← num13 (skipWs r2)
    let r4 ← expectCp 37 r3
    let r5 ← expectCp 44 (skipWs r4)
    let (n3, r6) ← num13 (skipWs r5)
    let r7 ← expectCp 37 r6
    let r8 ← expectCp 41 (skipWs r7)
    if r8 = [] then some (n1, n2, n3) else none
  | _ => none

/-- Core matcher for the classic `hsla` pattern. -/
def hslaCore : Str → Option (Nat × Nat × Nat × Str)
  | 104 :: 115 :: 108 :: 97 :: 40 :: r0 => do
    let (n1, r1) ← num13 (skipWs r0)
    let r2 ← expectCp 44 (skipWs r1)
    let (n2, r3) ← num13 (skipWs r2)
    let r4 ← expectCp 37 r3
    let r5 ← expectCp 44 (skipWs r4)
    let (n3, r6) ← num13 (skipWs r5)
    let r7 ← expectCp 37 r6
    let r8 ← expectCp 44 (skipWs r7)
    let (al, r9) ← tomaFloatCrudo (skipWs r8)
    let r10 ← expectCp 41 (skipWs r9)
    if r10 = [] then some (n1, n2, n3, al) else none
  | _ => none

/-- Core matcher for the modern space-separated `hsl` pattern. -/
def hslModernCore : Str → Option (Nat × Nat × Nat × Option Str)
  | 104 :: 115 :: 108 :: 40 :: r0 => do
    let (n1, r1) ← num13 (skipWs r0)
    let (n2, r2) ← num13 (← skipWs1 r1)
    let r3 ← expectCp 37 r2
    let (n3, r4) ← num13 (← skipWs1 r3)
    let r5 ← expectCp 37 r4
    let al ← colaModerna r5
    some (n1, n2, n3, al)
  | _ => none

/-- Case-insensitive application of the classic `rgb` pattern. -/
def rgbExec (l : Str) : Option (Nat × Nat × Nat) := rgbCore (lowerStr l)

/-- Case-insensitive application of the classic `rgba` pattern. -/
def rgbaExec (l : Str) : Option (Nat × Nat × Nat × Str) := rgbaCore (lowerStr l)

/-- Case-insensitive application of the modern `rgb` pattern. -/
def rgbModernExec (l : Str) : Option (Nat × Nat × Nat × Option Str) := rgbModernCore (lowerStr l)

/-- Case-insensitive application of the classic `hsl` pattern. -/
def hslExec (l : Str) : Option (Nat × Nat × Nat) := hslCore (lowerStr l)

/-- Case-insensitive application of the classic `hsla` pattern. -/
def hslaExec (l : Str) : Option (Nat × Nat × Nat × Str) := hslaCore (lowerStr l)

/-- Case-insensitive application of the modern `hsl` pattern. -/
def hslModernExec (l : Str) : Option (Nat × Nat × Nat × Option Str) := hslModernCore (lowerStr l)

/-- Fractional part value of a digit run after a decimal point. -/
def fracVal (ds : Str) : ℚ := (digitsToNat ds : ℚ) / (10 : ℚ) ^ ds.length

/-- Model of `parseFloat` on captures of `[\d.]+%?`: longest numeric
prefix of the forms `\d+`, `\d+.\d*` or `.\d+`; `NaN` otherwise. -/
def parseFloatQ (l : Str) : JsNum :=
  let ipart := l.takeWhile isDigit
  match l.dropWhile isDigit with
  | 46 :: r2 =>
    let fpart := r2.takeWhile isDigit
    if ipart = [] ∧ fpart = [] then .nan
    else .val ((digitsToNat ipart : ℚ) + fracVal fpart)
  | _ => if ipart = [] then .nan else .val (digitsToNat ipart)

/-- Division of a JavaScript number by 100, used for percent alphas. -/
def JsNum.div100 : JsNum → JsNum
  | .nan => .nan
  | .val q => .val (q / 100)

/-- Alpha value of a modern-syntax capture: `endsWith('%')` chooses
`parseFloat(s) / 100`, otherwise `parseFloat(s)`. -/
def alphaDeCadena (s : Str) : JsNum :=
  if s.getLast? = some 37 then (parseFloatQ s).div100 else parseFloatQ s

/-- Model of `hexARgb`: six hex digits with an optional hash sign decode
to the three channel bytes; anything else decodes to black. -/
def hexARgb (hx : Str) : ℚ × ℚ × ℚ :=
  let cuerpo : Str := match hx with
    | 35 :: r => r
    | r => r
  match cuerpo with
  | [a, b, c, d, e, f] =>
    if isHexDig a && isHexDig b && isHexDig c && isHexDig d && isHexDig e && isHexDig f then
      ((pairVal a b : ℚ), (pairVal c d : ℚ), (pairVal e f : ℚ))
    else (0, 0, 0)
  | _ => (0, 0, 0)

/-- One two-digit lowercase hexadecimal rendering of a clamped rounded
channel, the inner `toHex` helper of `rgbAHex` (`toString(16)` of a value
below 256, padded to two digits). -/
def toHexPair (q : ℚ) : Str :=
  let m := clamp255 (jsRound q)
  let s : Str := if m < 16 then [hexDigitCode m] else [hexDigitCode (m / 16), hexDigitCode (m % 16)]
  if s.length = 1 then 48 :: s else s

/-- Model of `rgbAHex`: hash sign, three channel pairs, and an alpha pair
exactly when an alpha argument was passed and is below one. -/
def rgbAHex (r g b : ℚ) (a : Option JsNum) : Str :=
  35 :: (toHexPair r ++ toHexPair g ++ toHexPair b ++
    (match a with
     | some (.val q) => if q < 1 then toHexPair ((jsRound (q * 255) : ℤ) : ℚ) else []
     | _ => []))

/-- Model of `hslARgb`, the six-band chroma construction with final
rounding of each channel. -/
def hslARgb (h s l : Nat) : ℚ × ℚ × ℚ :=
  let sNorm : ℚ := (s : ℚ) / 100
  let lNorm : ℚ := (l : ℚ) / 100
  let c := (1 - |2 * lNorm - 1|) * sNorm
  let hSexto : ℚ := (h : ℚ) / 60
  let x := c * (1 - |(hSexto - 2 * (⌊hSexto / 2⌋ : ℚ)) - 1|)
  let m := lNorm - c / 2
  let rgb : ℚ × ℚ × ℚ :=
    if h < 60 then (c, x, 0)
    else if h < 120 then (x, c, 0)
    else if h < 180 then (0, c, x)
    else if h < 240 then (0, x, c)
    else if h < 300 then (x, 0, c)
    else if h < 360 then (c, 0, x)
    else (0, 0, 0)
  (((jsRound ((rgb.1 + m) * 255) : ℤ) : ℚ),
   ((jsRound ((rgb.2.1 + m) * 255) : ℤ) : ℚ),
   ((jsRound ((rgb.2.2 + m) * 255) : ℤ) : ℚ))

/-- The `ColorFormat` enumeration of the source. -/
inductive ColorFormat where
  | Named | Hex | Rgb | Rgba | Hsl | Hsla
deriving DecidableEq, Repr

/-- The `ColorInfo` record returned by `parsearColor`. -/
structure ColorInfo where
  formato : ColorFormat
  r : ℚ
  g : ℚ
  b : ℚ
  a : JsNum
  original : Str
  hex : Str
deriving DecidableEq, Repr

/-- Model of `parsearColor`: the branch cascade over the named table and
the ten anchored patterns.  The named and hex patterns run on the trimmed
lowercase copy; the function-form patterns run on the raw input, exactly
as in the source. -/
def parsearColor (valor : Str) : Option ColorInfo :=
  let valorLimpio := lowerStr (trimStr valor)
  match buscarNombrado valorLimpio with
  | some hx =>
    if hx = codes "transparent" then
      some { formato := .Named, r := 0, g := 0, b := 0, a := .val 0
             original := valor, hex := codes "#00000000" }
    else
      let rgb := hexARgb hx
      some { formato := .Named, r := rgb.1, g := rgb.2.1, b := rgb.2.2, a := .val 1
             original := valor, hex := hx }
  | none =>
  match hex3Exec valorLimpio with
  | some (d1, d2, d3) =>
    let r : ℚ := pairVal d1 d1
    let g : ℚ := pairVal d2 d2
    let b : ℚ := pairVal d3 d3
    some { formato := .Hex, r := r, g := g, b := b, a := .val 1
           original := valor, hex := rgbAHex r g b none }
  | none =>
  match hex4Exec valorLimpio with
  | some (d1, d2, d3, d4) =>
    let r : ℚ := pairVal d1 d1
    let g : ℚ := pairVal d2 d2
    let b : ℚ := pairVal d3 d3
    let a : ℚ := pairVal d4 d4
    some { formato := .Hex, r := r, g := g, b := b, a := .val (a / 255)
           original := valor, hex := rgbAHex r g b (some (.val (a / 255))) }
  | none =>
  match hex6Exec valorLimpio with
  | some (d1, d2, d3, d4, d5, d6) =>
    let rgb := hexARgb (35 :: [d1, d2, d3, d4, d5, d6])
    some { formato := .Hex, r := rgb.1, g := rgb.2.1, b := rgb.2.2, a := .val 1
           original := valor, hex := 35 :: [d1, d2, d3, d4, d5, d6] }
  | none =>
  match hex8Exec valorLimpio with
  | some (d1, d2, d3, d4, d5, d6, d7, d8) =>
    some { formato := .Hex, r := (pairVal d1 d2 : ℚ), g := (pairVal d3 d4 : ℚ)
           b := (pairVal d5 d6 : ℚ), a := .val ((pairVal d7 d8 : ℚ) / 255)
           original := valor, hex := 35 :: [d1, d2, d3, d4, d5, d6, d7, d8] }
  | none =>
  match rgbExec valor with
  | some (n1, n2, n3) =>
    some { formato := .Rgb, r := (n1 : ℚ), g := (n2 : ℚ), b := (n3 : ℚ), a := .val 1
           original := valor, hex := rgbAHex (n1 : ℚ) (n2 : ℚ) (n3 : ℚ) none }
  | none =>
  match rgbaExec valor with
  | some (n1, n2, n3, crudo) =>
    let a := parseFloatQ crudo
    some { formato := .Rgba, r := (n1 : ℚ), g := (n2 : ℚ), b := (n3 : ℚ), a := a
           original := valor, hex := rgbAHex (n1 : ℚ) (n2 : ℚ) (n3 : ℚ) (some a) }
  | none =>
  match rgbModernExec valor with
  | some (n1, n2, n3, al) =>
    let a := match al with
      | none => .val 1
      | some s => alphaDeCadena s
    some { formato := if a.ltUno then .Rgba else .Rgb
           r := (n1 : ℚ), g := (n2 : ℚ), b := (n3 : ℚ), a := a
           original := valor, hex := rgbAHex (n1 : ℚ) (n2 : ℚ) (n3 : ℚ) (some a) }
  | none =>
  match hslExec valor with
  | some (n1, n2, n3) =>
    let rgb := hslARgb n1 n2 n3
    some { formato := .Hsl, r := rgb.1, g := rgb.2.1, b := rgb.2.2, a := .val 1
           original := valor, hex := rgbAHex rgb.1 rgb.2.1 rgb.2.2 none }
  | none =>
  match hslaExec valor with
  | some (n1, n2, n3, crudo) =>
    let a := parseFloatQ crudo
    let rgb := hslARgb n1 n2 n3
    some { formato := .Hsla, r := rgb.1, g := rgb.2.1, b := rgb.2.2, a := a
           original := valor, hex := rgbAHex rgb.1 rgb.2.1 rgb.2.2 (some a) }
  | none =>
  match hslModernExec valor with
  | some (n1, n2, n3, al) =>
    let a := match al with
      | none => .val 1
      | some s => alphaDeCadena s
    let rgb := hslARgb n1 n2 n3
    some { formato := if a.ltUno then .Hsla else .Hsl
           r := rgb.1, g := rgb.2.1, b := rgb.2.2, a := a
           original := valor, hex := rgbAHex rgb.1 rgb.2.1 rgb.2.2 (some a) }
  | none => none

/-- Model of `esColor`: membership in the named table or any of the ten
anchored patterns, all on the trimmed lowercase copy. -/
def esColor (valor : Str) : Bool :=
  let valorLimpio := lowerStr (trimStr valor)
  (buscarNombrado valorLimpio).isSome ||
  (hex3Exec valorLimpio).isSome || (hex4Exec valorLimpio).isSome ||
  (hex6Exec valorLimpio).isSome || (hex8Exec valorLimpio).isSome ||
  (rgbExec valorLimpio).isSome || (rgbaExec valorLimpio).isSome ||
  (rgbModernExec valorLimpio).isSome || (hslExec valorLimpio).isSome ||
  (hslaExec valorLimpio).isSome || (hslModernExec valorLimpio).isSome

section
attribute [local semireducible] Rat.add Rat.mul Rat.inv Rat.sub
example : (parsearColor (codes "#f00")).map (fun c => (c.r, c.g, c.b, c.a)) =
    some (255, 0, 0, .val 1) := by decide
example : (parsearColor (codes "rgba(0, 0, 0, 0.5)")).map (fun c => (c.r, c.g, c.b, c.a)) =
    some (0, 0, 0, .val (1 / 2)) := by decide
example : (parsearColor (codes "red")).map (fun c => c.hex) = some (codes "#ff0000") := by decide
example : (parsearColor (codes "#ff0000ff")).map (fun c => c.hex) =
    some (codes "#ff0000ff") := by decide
example : (parsearColor (codes "#ff0000ff")).map
    (fun c => rgbAHex c.r c.g c.b (some c.a)) = some (codes "#ff0000") := by decide
example : esColor (codes " rgb(0, 0, 0)") = true := by decide
example : parsearColor (codes " rgb(0, 0, 0)") = none := by decide
example : (parsearColor (codes "hsl(120, 50%, 50%)")).map (fun c => (c.r, c.g, c.b)) =
    some (64, 191, 64) := by decide
end

/-! ## Value analyzer (`valueParser.ts`)

The `VAR_REGEX` pattern `var\(\s*(--[\w-]+)\s*(?:,\s*([^)]+))?\s*\)` is
embedded as a matcher at one position plus the standard `exec` scan that
advances past each match and by one character otherwise.  For the
optional fallback group, backtracking between `,\s*`, `([^)]+)` and
`\s*\)` makes the group succeed exactly when at least one character
stands between the comma and the next closing parenthesis; the capture
then trims to the trimmed segment, and `match[2]?.trim() || null` turns
an all-whitespace segment into `null`. -/

/-- One parsed `var()` occurrence, the `VariableMatch` record. -/
structure VariableMatch where
  nombreCompleto : Str
  nombreVariable : Str
  fallback : Option Str
  inicio : Nat
  fin : Nat
deriving DecidableEq, Repr

/-- Attempt `VAR_REGEX` at the start of the input; on success return the
captured name (with its two dashes), the effective fallback, and the
length of the whole match. -/
def matchVarAt (l : Str) : Option (Str × Option Str × Nat) :=
  match l with
  | 118 :: 97 :: 114 :: 40 :: r1 =>
    let w1 := r1.takeWhile isWs
    match r1.dropWhile isWs with
    | 45 :: 45 :: r3 =>
      let nm := r3.takeWhile isWordDash
      if nm = [] then none else
      let r4 := r3.dropWhile isWordDash
      let w2 := r4.takeWhile isWs
      match r4.dropWhile isWs with
      | 41 :: _ => some (45 :: 45 :: nm, none, 4 + w1.length + 2 + nm.length + w2.length + 1)
      | 44 :: r6 =>
        let fb := r6.takeWhile (fun c => c != 41)
        if fb = [] then none else
        match r6.dropWhile (fun c => c != 41) with
        | 41 :: _ =>
          let t := trimStr fb
          some (45 :: 45 :: nm, if t = [] then none else some t,
            4 + w1.length + 2 + nm.length + w2.length + 1 + fb.length + 1)
        | _ => none
      | _ => none
    | _ => none
  | _ => none

/-- The `exec` loop of `extraerVariablesDeValor`: try a match at every
position, recording positions, and continue after each match.  A match is
at least five characters long, so continuing after it is a drop on the
tail.  The structural fuel is initialized to the input length, which each
step decreases by at least one, so the fuel never runs out. -/
def extraerVariablesDeValorAux : Nat → Str → Nat → List VariableMatch
  | 0, _, _ => []
  | _ + 1, [], _ => []
  | fuel + 1, c :: rest, i =>
    match matchVarAt (c :: rest) with
    | some (nm, fb, len) =>
      { nombreCompleto := (c :: rest).take len, nombreVariable := nm, fallback := fb
        inicio := i, fin := i + len } :: extraerVariablesDeValorAux fuel (rest.drop (len - 1)) (i + len)
    | none => extraerVariablesDeValorAux fuel rest (i + 1)

/-- Model of `extraerVariablesDeValor`. -/
def extraerVariablesDeValor (valor : Str) : List VariableMatch :=
  extraerVariablesDeValorAux valor.length valor 0

/-- Case-insensitive test that the input begins with the given lowercase
literal. -/
def empiezaConCI (l pat : Str) : Bool := (l.take pat.length).map lowerCode == pat

/-- The global case-insensitive deletion `replace(/!important/gi, "")`:
scan left to right, delete each occurrence, continue after it.  The
literal is ten characters, so continuing after a match drops nine from
the tail. -/
def quitaImportanteAux : Nat → Str → Str
  | 0, l => l
  | _ + 1, [] => []
  | fuel + 1, c :: rest =>
    if empiezaConCI (c :: rest) (codes "!important") then quitaImportanteAux fuel (rest.drop 9)
    else c :: quitaImportanteAux fuel rest

/-- The deletion applied to the whole input, with sufficient fuel. -/
def quitaImportante (l : Str) : Str := quitaImportanteAux l.length l

/-- The final-semicolon strip `replace(/;$/, "")`. -/
def quitaPuntoComaFinal (l : Str) : Str :=
  match l.getLast? with
  | some 59 => l.dropLast
  | _ => l

/-- Model of `extraerValorLimpio`: drop `!important`, drop a trailing
semicolon, trim. -/
def extraerValorLimpio (valorCompleto : Str) : Str :=
  trimStr (quitaPuntoComaFinal (quitaImportante valorCompleto))

/-- The CSS units alternation of the `numerico` pattern. -/
def UNIDADES_CSS : List Str :=
  [codes "px", codes "em", codes "rem", codes "%", codes "vh", codes "vw", codes "vmin",
   codes "vmax", codes "ch", codes "ex", codes "cm", codes "mm", codes "in", codes "pt",
   codes "pc", codes "deg", codes "rad", codes "turn", codes "s", codes "ms"]

/-- Matcher for the anchored `numerico` pattern
`-?\d+(\.\d+)?(unit)$` (case-insensitive): an optional sign, digits, an
optional fraction, and the rest of the string equal to one unit.  The
optional fraction group backtracks, so both readings of the remainder are
tried. -/
def numericoMatch (l : Str) : Bool :=
  let l1 := match l with
    | 45 :: r => r
    | r => r
  let ds := l1.takeWhile isDigit
  if ds = [] then false else
  let r1 := l1.dropWhile isDigit
  let conFraccion : Bool :=
    match r1 with
    | 46 :: r2 =>
      let fs := r2.takeWhile isDigit
      if fs = [] then false
      else UNIDADES_CSS.contains (lowerStr (r2.dropWhile isDigit))
    | _ => false
  conFraccion || UNIDADES_CSS.contains (lowerStr r1)

/-- Matcher for the anchored `hex` pattern of `HARDCODED_PATTERNS`: three,
four, six or eight hex digits after a hash sign. -/
def hexHardMatch (l : Str) : Bool :=
  match l with
  | c :: rest =>
    c == 35 &&
      (rest.length == 3 || rest.length == 4 || rest.length == 6 || rest.length == 8) &&
      rest.all isHexDig
  | [] => false

/-- Matcher for the unanchored-right pattern `^rgba?\s*\(` (insensitive). -/
def rgbFnMatch (l : Str) : Bool :=
  match lowerStr l with
  | c1 :: c2 :: c3 :: r1 =>
    c1 == 114 && c2 == 103 && c3 == 98 &&
      (match (match r1 with
              | 97 :: r2 => r2
              | _ => r1).dropWhile isWs with
       | 40 :: _ => true
       | _ => false)
  | _ => false

/-- Matcher for the unanchored-right pattern `^hsla?\s*\(` (insensitive). -/
def hslFnMatch (l : Str) : Bool :=
  match lowerStr l with
  | c1 :: c2 :: c3 :: r1 =>
    c1 == 104 && c2 == 115 && c3 == 108 &&
      (match (match r1 with
              | 97 :: r2 => r2
              | _ => r1).dropWhile isWs with
       | 40 :: _ => true
       | _ => false)
  | _ => false

/-- Model of `esValorHardcodeado`: trim, exclude anything containing
`var(`, then test the hex, rgb, hsl and numeric patterns and finally
`esColor`. -/
def esValorHardcodeado (valor : Str) : Bool :=
  let valorLimpio := trimStr valor
  if containsSub valorLimpio (codes "var(") then false
  else
    hexHardMatch valorLimpio || rgbFnMatch valorLimpio || hslFnMatch valorLimpio ||
    numericoMatch valorLimpio || esColor valorLimpio

example : (extraerVariablesDeValor (codes "linear-gradient(var(--start), var(--end))")).map
    (fun m => m.nombreVariable) = [codes "--start", codes "--end"] := by decide
example : (extraerVariablesDeValor (codes "var(--color, #fff)")).map
    (fun m => (m.nombreVariable, m.fallback)) = [(codes "--color", some (codes "#fff"))] := by
  decide
example : esValorHardcodeado (codes "16px") = true := by decide
example : esValorHardcodeado (codes "#fff") = true := by decide
example : esValorHardcodeado (codes "rgb(255,0,0)") = true := by decide
example : esValorHardcodeado (codes "var(--size)") = false := by decide
example : esValorHardcodeado (codes "calc(var(--x) + 10px)") = false := by decide
example : esValorHardcodeado (codes "1.5rem") = true := by decide
example : esValorHardcodeado (codes "50%") = true := by decide
example : esValorHardcodeado (codes "red") = true := by decide
example : esValorHardcodeado (codes "16") = false := by decide
example : extraerValorLimpio (codes " #fff !important;") = codes "#fff" := by decide
example : extraerValorLimpio (codes " #fff !important; ") = codes "#fff ;" := by decide

/-! ## Variable resolver (`variableResolver.ts`)

The recursion of `resolverRecursivo` is bounded by the depth limit
`MAX_RESOLUCION_PROFUNDIDAD = 10`: the guard aborts as soon as
`profundidad >= 10`, so the remaining budget `10 - profundidad` is a
structural recursion measure, and the function is defined by recursion on
that budget (`resolverGo`).  The per-name memo cache of the class is not
modelled: it stores exactly the results of `resolverRecursivo` and is
cleared wholesale on change notifications. -/

/-- One indexed declaration, the `CssVariable` record. -/
structure CssVariable where
  nombre : Str
  valor : Str
  archivo : Str
  linea : Nat
  columna : Nat
  esColor : Bool
  frecuenciaUso : Nat
  valorResuelto : Option Str := none
deriving DecidableEq, Repr

/-- A resolution outcome, the `ResolvedVariable` record; the source's
`variable` field is named `varInfo` because `variable` is reserved. -/
structure ResolvedVariable where
  encontrada : Bool
  varInfo : Option CssVariable := none
  cadenaResolucion : List Str
deriving DecidableEq, Repr

/-- The global name-to-declaration mapping read by the resolver. -/
abbrev IndiceVariables := List (Str × CssVariable)

/-- Map lookup by name, as `Map.get`. -/
def obtenerVariableDe (idx : IndiceVariables) (nombre : Str) : Option CssVariable :=
  (idx.find? (fun p => p.1 == nombre)).map (fun p => p.2)

/-- The depth bound of the resolver. -/
def MAX_RESOLUCION_PROFUNDIDAD : Nat := 10

/-- First-occurrence string replacement, as `String.prototype.replace`
with a string pattern.  Dollar escapes in the replacement are not
interpreted; no claim depends on them. -/
def replaceFirst : Str → Str → Str → Str
  | [], _, _ => []
  | c :: rest, pat, repl =>
    if pat.isPrefixOf (c :: rest) then repl ++ (c :: rest).drop pat.length
    else c :: replaceFirst rest pat repl

/-- Body of `resolverRecursivo`, by recursion on the remaining budget
`10 - profundidad`; budget zero is exactly the guard `profundidad >= 10`. -/
def resolverGo (idx : IndiceVariables) : Str → List Str → Nat → ResolvedVariable
  | _, cadena, 0 => { encontrada := false, cadenaResolucion := cadena }
  | nombreVariable, cadena, restante + 1 =>
    if cadena.contains nombreVariable then
      { encontrada := false, cadenaResolucion := cadena }
    else
      match obtenerVariableDe idx nombreVariable with
      | none => { encontrada := false, cadenaResolucion := cadena ++ [nombreVariable] }
      | some laVariable =>
        match extraerVariablesDeValor laVariable.valor with
        | [] =>
          { encontrada := true
            varInfo := some { laVariable with valorResuelto := some laVariable.valor }
            cadenaResolucion := cadena ++ [nombreVariable] }
        | primeraVar :: _ =>
          let resultadoAnidado :=
            resolverGo idx primeraVar.nombreVariable (cadena ++ [nombreVariable]) restante
          match resultadoAnidado.encontrada, resultadoAnidado.varInfo with
          | true, some varAnidada =>
            let reemplazo := match varAnidada.valorResuelto with
              | some s => if s = [] then varAnidada.valor else s
              | none => varAnidada.valor
            let valorNuevo := replaceFirst laVariable.valor
              (codes "var(" ++ primeraVar.nombreVariable ++ codes ")") reemplazo
            let varActualizada :=
              { laVariable with valorResuelto := some valorNuevo, esColor := esColor valorNuevo }
            { encontrada := true
              varInfo := some varActualizada
              cadenaResolucion := resultadoAnidado.cadenaResolucion }
          | _, _ =>
            { encontrada := true
              varInfo := some { laVariable with valorResuelto := some laVariable.valor }
              cadenaResolucion := resultadoAnidado.cadenaResolucion }

/-- Model of `resolverRecursivo`. -/
def resolverRecursivo (idx : IndiceVariables) (nombreVariable : Str) (cadena : List Str)
    (profundidad : Nat) : ResolvedVariable :=
  resolverGo idx nombreVariable cadena (MAX_RESOLUCION_PROFUNDIDAD - profundidad)

/-- Model of `resolver`: the recursion entered with an empty chain at
depth zero (the memo cache is transparent to the result). -/
def resolver (idx : IndiceVariables) (nombreVariable : Str) : ResolvedVariable :=
  resolverRecursivo idx nombreVariable [] 0

/-- Test declaration constructor used by concrete indexes. -/
def varDe (nombre valor : Str) : CssVariable :=
  { nombre := nombre, valor := valor, archivo := codes "a.css", linea := 0, columna := 0
    esColor := false, frecuenciaUso := 0 }

/-- A one-entry index whose variable references itself. -/
def indiceAuto : IndiceVariables :=
  [(codes "--a", varDe (codes "--a") (codes "var(--a)"))]

/-- An index with a chain of twelve declarations, eleven of which are
nested `var()` references. -/
def indiceCadena : IndiceVariables :=
  [(codes "--v0", varDe (codes "--v0") (codes "var(--v1)")),
   (codes "--v1", varDe (codes "--v1") (codes "var(--v2)")),
   (codes "--v2", varDe (codes "--v2") (codes "var(--v3)")),
   (codes "--v3", varDe (codes "--v3") (codes "var(--v4)")),
   (codes "--v4", varDe (codes "--v4") (codes "var(--v5)")),
   (codes "--v5", varDe (codes "--v5") (codes "var(--v6)")),
   (codes "--v6", varDe (codes "--v6") (codes "var(--v7)")),
   (codes "--v7", varDe (codes "--v7") (codes "var(--v8)")),
   (codes "--v8", varDe (codes "--v8") (codes "var(--v9)")),
   (codes "--v9", varDe (codes "--v9") (codes "var(--v10)")),
   (codes "--v10", varDe (codes "--v10") (codes "var(--v11)")),
   (codes "--v11", varDe (codes "--v11") (codes "red"))]

/-! ## Structural parser pieces (`cssParser.ts`)

`eliminarComentarios` repeats the comment regex: the earliest `/*`
followed (lazily) by the first later `*/` is replaced by an equal run of
spaces, and scanning continues after it; with no such pair the rest of
the text is kept.  The same recursion computes the comment spans, used to
state offset stability.  Both use structural fuel initialized to the
input length, which every step strictly decreases below. -/

/-- Index of the first occurrence of the two-character sequence `a b`. -/
def findSub2 (a b : Nat) : Str → Option Nat
  | x :: y :: rest =>
    if x = a ∧ y = b then some 0 else (findSub2 a b (y :: rest)).map (fun n => n + 1)
  | _ => none

/-- The comment-stripping loop of `eliminarComentarios`. -/
def eliminarComentariosAux : Nat → Str → Str
  | 0, l => l
  | fuel + 1, l =>
    match findSub2 47 42 l with
    | none => l
    | some i =>
      match findSub2 42 47 (l.drop (i + 2)) with
      | none => l
      | some k =>
        l.take i ++ List.replicate (k + 4) 32 ++
          eliminarComentariosAux fuel ((l.drop (i + 2)).drop (k + 2))

/-- Model of `eliminarComentarios`. -/
def eliminarComentarios (texto : Str) : Str := eliminarComentariosAux texto.length texto

/-- The comment spans (start offset, length) that the same scan blanks. -/
def comentarioRegionesAux : Nat → Str → Nat → List (Nat × Nat)
  | 0, _, _ => []
  | fuel + 1, l, base =>
    match findSub2 47 42 l with
    | none => []
    | some i =>
      match findSub2 42 47 (l.drop (i + 2)) with
      | none => []
      | some k =>
        (base + i, k + 4) :: comentarioRegionesAux fuel ((l.drop (i + 2)).drop (k + 2))
          (base + i + k + 4)

/-- Comment spans of a document. -/
def comentarioRegiones (texto : Str) : List (Nat × Nat) := comentarioRegionesAux texto.length texto 0

/-- Whether offset `n` lies inside a comment of `texto`. -/
def dentroDeComentario (texto : Str) (n : Nat) : Bool :=
  (comentarioRegiones texto).any (fun r => r.1 ≤ n && n < r.1 + r.2)

/-- Line and column of an offset, counting newline characters, as the
`calcularPosicion` helper and the editor's `positionAt`. -/
def calcularPosicion (texto : Str) (offset : Nat) : Nat × Nat :=
  (texto.take offset).foldl (fun p c => if c = 10 then (p.1 + 1, 0) else (p.1, p.2 + 1)) (0, 0)

/-- One raw match of the definition regex `(--[\w-]+)\s*:\s*([^;{}]+);`
of `parsearSoloDefiniciones`: name with dashes, raw value capture, match
offset. -/
structure DefMatch where
  nombre : Str
  crudo : Str
  indice : Nat
deriving DecidableEq, Repr

/-- Attempt the definition regex at the start of the input.  Writing `S`
for the maximal run of characters other than `;`, `{`, `}` after the
colon, which must be followed by `;`, backtracking between `\s*` and
`([^;{}]+)` makes the capture `S` without its whitespace head, or the
last character of `S` when `S` is all whitespace. -/
def matchDefAt (l : Str) : Option (Str × Str × Nat) :=
  match l with
  | 45 :: 45 :: r1 =>
    let nm := r1.takeWhile isWordDash
    if nm = [] then none else
    let r2 := r1.dropWhile isWordDash
    let w1 := r2.takeWhile isWs
    match r2.dropWhile isWs with
    | 58 :: r4 =>
      let s := r4.takeWhile (fun c => !(c == 59 || c == 123 || c == 125))
      if s = [] then none else
      match r4.drop s.length with
      | 59 :: _ =>
        let cap := if s.dropWhile isWs = [] then s.drop (s.length - 1) else s.dropWhile isWs
        some (45 :: 45 :: nm, cap, 2 + nm.length + w1.length + 1 + s.length + 1)
      | _ => none
    | _ => none
  | _ => none

/-- The `exec` loop of the definition regex over a whole document. -/
def buscarDefinicionesAux : Nat → Str → Nat → List DefMatch
  | 0, _, _ => []
  | _ + 1, [], _ => []
  | fuel + 1, c :: rest, i =>
    match matchDefAt (c :: rest) with
    | some (nm, cap, len) =>
      { nombre := nm, crudo := cap, indice := i } ::
        buscarDefinicionesAux fuel (rest.drop (len - 1)) (i + len)
    | none => buscarDefinicionesAux fuel rest (i + 1)

/-- All raw definition matches of a document, in order. -/
def buscarDefiniciones (texto : Str) : List DefMatch := buscarDefinicionesAux texto.length texto 0

/-- Model of `parsearSoloDefiniciones` for one file: each raw match
becomes a declaration whose stored value is `extraerValorLimpio` of the
raw capture. -/
def parsearSoloDefiniciones (archivo texto : Str) : List CssVariable :=
  (buscarDefiniciones texto).map (fun m =>
    let posicion := calcularPosicion texto m.indice
    let valorLimpio := extraerValorLimpio m.crudo
    { nombre := m.nombre, valor := valorLimpio, archivo := archivo
      linea := posicion.1, columna := posicion.2
      esColor := esColor valorLimpio, frecuenciaUso := 0 })

/-! ## Variable scanner (`variableScanner.ts`)

The scanner's cache is the association-list image of the two `Map`s plus
the validity flag and the in-progress flag.  `Map.set`, `Map.get`,
`Map.has` and `Map.delete` are modelled on association lists whose keys
are unique, as in a JavaScript `Map`; deletion removes every binding of
the key, which agrees with `Map.delete` on unique-key lists.  A full scan
processes the files in list order; in the source the per-file tasks are
interleaved by `Promise.all`, with registration order not guaranteed, so
the model fixes one enumeration order. -/

/-- JavaScript `Map.set`: replace the binding in place or append. -/
def mapSet {α : Type} (k : Str) (v : α) : List (Str × α) → List (Str × α)
  | [] => [(k, v)]
  | (k2, v2) :: rest => if k2 == k then (k, v) :: rest else (k2, v2) :: mapSet k v rest

/-- JavaScript `Map.get`. -/
def mapGet {α : Type} (m : List (Str × α)) (k : Str) : Option α :=
  (m.find? (fun p => p.1 == k)).map (fun p => p.2)

/-- JavaScript `Map.has`. -/
def mapHas {α : Type} (m : List (Str × α)) (k : Str) : Bool := (mapGet m k).isSome

/-- JavaScript `Map.delete`. -/
def mapDelete {α : Type} (k : Str) (m : List (Str × α)) : List (Str × α) :=
  m.filter (fun p => !(p.1 == k))

/-- The `VariableIndex` record; the source's `variables` map is named
`vars` because `variables` is reserved. -/
structure VariableIndex where
  vars : IndiceVariables
  ultimaActualizacion : Nat
  archivosEscaneados : List Str
deriving DecidableEq, Repr

/-- The `CacheState` record. -/
structure CacheState where
  valido : Bool
  indice : VariableIndex
  variablesPorArchivo : List (Str × List CssVariable)
deriving DecidableEq, Repr

/-- The scanner's whole mutable state: the cache plus the in-progress
flag `_escaneando`. -/
structure ScannerState where
  cache : CacheState
  escaneando : Bool
deriving DecidableEq, Repr

/-- The registration loop of `procesarArchivo`: each declaration enters
the global map only when its name is absent. -/
def registrarVariables (listaVars : List CssVariable) (idx : IndiceVariables) : IndiceVariables :=
  listaVars.foldl (fun m v => if mapHas m v.nombre then m else m ++ [(v.nombre, v)]) idx

/-- Model of `procesarArchivo` on one file's text: record the file's
declarations in the reverse index and register them first-wins. -/
def procesarArchivo (st : ScannerState) (archivo texto : Str) : ScannerState :=
  let listaVars := parsearSoloDefiniciones archivo texto
  let cache0 := st.cache
  { st with cache :=
      { cache0 with
        variablesPorArchivo := mapSet archivo listaVars cache0.variablesPorArchivo
        indice := { cache0.indice with
          vars := registrarVariables listaVars cache0.indice.vars } } }

/-- Model of `escanear`: an in-progress scan returns the current index
unchanged; a valid non-forced cache returns it as well; otherwise the
maps are cleared, every file is processed, and the metadata is updated.
The file list stands for the file search results, `ahora` for
`Date.now()`. -/
def escanear (st : ScannerState) (archivos : List (Str × Str)) (forzar : Bool) (ahora : Nat) :
    ScannerState × VariableIndex :=
  if st.escaneando then (st, st.cache.indice)
  else if st.cache.valido && !forzar then (st, st.cache.indice)
  else
    let cache0 := st.cache
    let limpio : ScannerState :=
      { escaneando := true
        cache := { cache0 with
          variablesPorArchivo := []
          indice := { cache0.indice with vars := [], archivosEscaneados := [] } } }
    let procesado := archivos.foldl (fun s par => procesarArchivo s par.1 par.2) limpio
    let final : ScannerState :=
      { escaneando := false
        cache := { procesado.cache with
          valido := true
          indice := { procesado.cache.indice with
            ultimaActualizacion := ahora
            archivosEscaneados := archivos.map (fun par => par.1) } } }
    (final, final.cache.indice)

/-- The removal loop shared by `actualizarArchivo` and `eliminarArchivo`:
each of the file's previously recorded declarations is deleted from the
global map only when the currently recorded owner is this file. -/
def eliminarVariablesDe (anteriores : List CssVariable) (archivo : Str)
    (idx : IndiceVariables) : IndiceVariables :=
  anteriores.foldl (fun m v =>
    match mapGet m v.nombre with
    | some actual => if actual.archivo == archivo then mapDelete v.nombre m else m
    | none => m) idx

/-- Model of `actualizarArchivo`: remove the file's owned entries, then
re-process its new text and update the timestamp. -/
def actualizarArchivo (st : ScannerState) (archivo texto : Str) (ahora : Nat) : ScannerState :=
  let anteriores := (mapGet st.cache.variablesPorArchivo archivo).getD []
  let idx1 := eliminarVariablesDe anteriores archivo st.cache.indice.vars
  let st1 : ScannerState :=
    { st with cache := { st.cache with indice := { st.cache.indice with vars := idx1 } } }
  let st2 := procesarArchivo st1 archivo texto
  { st2 with cache := { st2.cache with indice :=
      { st2.cache.indice with ultimaActualizacion := ahora } } }

/-- Model of `eliminarArchivo`: with no reverse-index entry nothing
changes; otherwise the owned entries leave the global map, and the file
leaves the reverse index and the scanned list. -/
def eliminarArchivo (st : ScannerState) (archivo : Str) : ScannerState :=
  match mapGet st.cache.variablesPorArchivo archivo with
  | none => st
  | some anteriores =>
    let idx1 := eliminarVariablesDe anteriores archivo st.cache.indice.vars
    { st with cache := { st.cache with
        variablesPorArchivo := mapDelete archivo st.cache.variablesPorArchivo
        indice := { st.cache.indice with
          vars := idx1
          archivosEscaneados :=
            st.cache.indice.archivosEscaneados.filter (fun f => !(f == archivo)) } } }

/-! ## Diagnostic pipeline (`diagnosticProvider.ts`) -/

/-- One parsed `var()` usage as carried into diagnostics. -/
structure VariableUsage where
  nombreVariable : Str
  linea : Nat
  columna : Nat
  fallback : Option Str := none
deriving DecidableEq, Repr

/-- The per-document parse result fields consumed by the undefined-
variable detection. -/
structure ParseResult where
  variablesDefinidas : List CssVariable
  usosVariables : List VariableUsage
deriving DecidableEq, Repr

/-- An emitted diagnostic: the offending usage plus the diagnostic code
(`1` stands for `VariableNoDefinida`). -/
structure Diagnostico where
  uso : VariableUsage
  codigo : Nat
deriving DecidableEq, Repr

/-- Model of `detectarVariablesNoDefinidas`: one diagnostic per usage
whose name is in neither the global map nor the document's own
declarations. -/
def detectarVariablesNoDefinidas (idx : IndiceVariables) (resultadoParse : ParseResult) :
    List Diagnostico :=
  let variablesLocales := resultadoParse.variablesDefinidas.map (fun v => v.nombre)
  (resultadoParse.usosVariables.filter (fun uso =>
    !(mapHas idx uso.nombreVariable) && !(variablesLocales.contains uso.nombreVariable))).map
    (fun uso => { uso := uso, codigo := 1 })

example : eliminarComentarios (codes "a/*xx*/b") = codes "a      b" := by decide
example : (eliminarComentarios (codes "a/*xx*/b")).length = (codes "a/*xx*/b").length := by decide
example : comentarioRegiones (codes "a/*x*/b/*y*/") = [(1, 5), (7, 5)] := by decide
example : eliminarComentarios (codes "a/*x") = codes "a/*x" := by decide
example : (buscarDefiniciones (codes ":root \x7b --c: #fff; \x7d")).map
    (fun m => (m.nombre, m.crudo)) = [(codes "--c", codes "#fff")] := by decide
example : (parsearSoloDefiniciones (codes "a.css") (codes ":root \x7b --c: #fff !important; \x7d")).map
    (fun v => (v.nombre, v.valor)) = [(codes "--c", codes "#fff")] := by decide

/-! ## Claims about the resolver (C1, C2) -/

/-- Budget zero, the guard `profundidad >= 10`, is not-found. -/
theorem resolverGo_cero (idx : IndiceVariables) (n : Str) (cadena : List Str) :
    resolverGo idx n cadena 0 = { encontrada := false, cadenaResolucion := cadena } := rfl

/-- With budget left, a declared name outside the visited chain always
resolves as found: both outcomes of the nested resolution return
`encontrada := true`. -/
theorem resolverGo_encontrada (idx : IndiceVariables) (n : Str) (cadena : List Str) (r : Nat)
    (v : CssVariable) (h : obtenerVariableDe idx n = some v)
    (hc : cadena.contains n = false) :
    (resolverGo idx n cadena (r + 1)).encontrada = true := by
  simp only [resolverGo, hc, Bool.false_eq_true, if_false, h]
  split
  · rfl
  · split
    · rfl
    · rfl

/-- C1: corrected.  For a chain of eleven or more nested references the
head still resolves as found (`encontrada = true`): whenever the head
name is declared, `resolver` returns a found result, because a failed
nested resolution falls back to the declaration's own raw value; only
the recursive calls at depth ten or beyond return not-found. -/
theorem cadena_larga_cabeza_encontrada (idx : IndiceVariables) (nombre : Str) (v : CssVariable)
    (h : obtenerVariableDe idx nombre = some v) :
    (resolver idx nombre).encontrada = true ∧
    (∀ (n2 : Str) (cadena : List Str) (p : Nat), MAX_RESOLUCION_PROFUNDIDAD ≤ p →
      resolverRecursivo idx n2 cadena p = { encontrada := false, cadenaResolucion := cadena }) := by
  constructor
  · have h10 : MAX_RESOLUCION_PROFUNDIDAD - 0 = 9 + 1 := rfl
    show (resolverRecursivo idx nombre [] 0).encontrada = true
    rw [resolverRecursivo, h10]
    exact resolverGo_encontrada idx nombre [] 9 v h rfl
  · intro n2 cadena p hp
    rw [resolverRecursivo, Nat.sub_eq_zero_of_le hp]
    exact resolverGo_cero idx n2 cadena

/-- C1: counterexample to the claim as stated.  `indiceCadena` is a chain
of eleven nested `var()` references ending in a literal; resolving the
head `--v0` returns found, not not-found. -/
theorem cadena_larga_contraejemplo :
    (resolver indiceCadena (codes "--v0")).encontrada = true := by decide

/-- C1: witness instantiating the amended theorem on the concrete chain. -/
theorem cadena_larga_cabeza_encontrada_testigo :
    (resolver indiceCadena (codes "--v0")).encontrada = true ∧
    resolverRecursivo indiceCadena (codes "--v9") [] 10 =
      { encontrada := false, cadenaResolucion := [] } := by
  have h : obtenerVariableDe indiceCadena (codes "--v0") =
      some (varDe (codes "--v0") (codes "var(--v1)")) := by decide
  exact ⟨(cadena_larga_cabeza_encontrada indiceCadena (codes "--v0") _ h).1,
    (cadena_larga_cabeza_encontrada indiceCadena (codes "--v0") _ h).2 (codes "--v9") [] 10
      (by decide)⟩

/-- C2: corrected.  Resolving a self-referencing declaration terminates
(the model is a total function), but returns a found result carrying the
raw value `var(--a)`, not a not-found result: the inner recursive call
detects the cycle and returns not-found, and the caller then falls back
to the declaration's own value with `encontrada := true`. -/
theorem autorreferencia_resuelta (idx : IndiceVariables) (v : CssVariable)
    (h : obtenerVariableDe idx (codes "--a") = some v) (hv : v.valor = codes "var(--a)") :
    resolver idx (codes "--a") =
      { encontrada := true, varInfo := some { v with valorResuelto := some v.valor }
        cadenaResolucion := [codes "--a"] } ∧
    resolverRecursivo idx (codes "--a") [codes "--a"] 1 =
      { encontrada := false, cadenaResolucion := [codes "--a"] } := by
  have hex : extraerVariablesDeValor (codes "var(--a)") =
      [{ nombreCompleto := codes "var(--a)", nombreVariable := codes "--a", fallback := none
         inicio := 0, fin := 8 }] := by decide
  have ciclo : ∀ cadena : List Str, cadena.contains (codes "--a") = true →
      resolverGo idx (codes "--a") cadena 9 =
        { encontrada := false, cadenaResolucion := cadena } := by
    intro cadena hcad
    have h9 : (9 : Nat) = 8 + 1 := rfl
    rw [h9]
    simp only [resolverGo, hcad, if_true]
  constructor
  · have h10 : MAX_RESOLUCION_PROFUNDIDAD - 0 = 9 + 1 := rfl
    show resolverRecursivo idx (codes "--a") [] 0 = _
    rw [resolverRecursivo, h10, resolverGo.eq_2, if_neg (by decide), h]
    dsimp only
    rw [hv, hex]
    dsimp only
    rw [ciclo ([] ++ [codes "--a"]) (by decide)]
    rfl
  · have h9 : MAX_RESOLUCION_PROFUNDIDAD - 1 = 9 := rfl
    rw [resolverRecursivo, h9]
    exact ciclo [codes "--a"] (by decide)

/-- C2: counterexample to the claim as stated: on the concrete
self-referencing index, `resolver` returns found, not not-found. -/
theorem autorreferencia_contraejemplo :
    (resolver indiceAuto (codes "--a")).encontrada = true := by decide

/-- C2: witness instantiating the amended theorem on the concrete
self-referencing index. -/
theorem autorreferencia_resuelta_testigo :
    resolver indiceAuto (codes "--a") =
      { encontrada := true
        varInfo := some { varDe (codes "--a") (codes "var(--a)") with
          valorResuelto := some (codes "var(--a)") }
        cadenaResolucion := [codes "--a"] } := by
  have h : obtenerVariableDe indiceAuto (codes "--a") =
      some (varDe (codes "--a") (codes "var(--a)")) := by decide
  have := autorreferencia_resuelta indiceAuto (varDe (codes "--a") (codes "var(--a)")) h (by decide)
  exact this.1

/-! ## Claims about the scanner state machine (C8, C4) -/

/-- C8: while a scan is in progress, `escanear` returns the current
(possibly stale) index and the whole scanner state — global map, per-file
reverse index, scanned-file list and validity flag — unchanged. -/
theorem escaneo_concurrente_sin_cambio (st : ScannerState) (archivos : List (Str × Str))
    (forzar : Bool) (ahora : Nat) (h : st.escaneando = true) :
    escanear st archivos forzar ahora = (st, st.cache.indice) := by
  simp [escanear, h]

/-- A concrete scanner state with a scan in progress. -/
def estadoOcupado : ScannerState :=
  { escaneando := true
    cache := { valido := false
               indice := { vars := indiceAuto, ultimaActualizacion := 7
                           archivosEscaneados := [codes "a.css"] }
               variablesPorArchivo := [(codes "a.css", [varDe (codes "--a") (codes "red")])] } }

/-- C8: witness on a concrete busy state. -/
theorem escaneo_concurrente_sin_cambio_testigo :
    escanear estadoOcupado [(codes "b.css", codes "x{}")] true 99 =
      (estadoOcupado, estadoOcupado.cache.indice) :=
  escaneo_concurrente_sin_cambio estadoOcupado [(codes "b.css", codes "x{}")] true 99 rfl

/-- Is the currently recorded owner of name `n` the file `archivo`? -/
def esDuenio (idx : IndiceVariables) (n archivo : Str) : Bool :=
  match mapGet idx n with
  | some actual => actual.archivo == archivo
  | none => false

/-- The declarations previously contributed by a file, per the reverse
index (empty when the file was never recorded). -/
def contribuidasPor (st : ScannerState) (archivo : Str) : List CssVariable :=
  (mapGet st.cache.variablesPorArchivo archivo).getD []

theorem mapGet_cons {α : Type} (k1 : Str) (v1 : α) (rest : List (Str × α)) (n : Str) :
    mapGet ((k1, v1) :: rest) n = if k1 = n then some v1 else mapGet rest n := by
  by_cases h : k1 = n <;> simp [mapGet, List.find?_cons, h]

theorem mapDelete_cons {α : Type} (k k1 : Str) (v1 : α) (rest : List (Str × α)) :
    mapDelete k ((k1, v1) :: rest) =
      if k1 = k then mapDelete k rest else (k1, v1) :: mapDelete k rest := by
  by_cases h : k1 = k <;> simp [mapDelete, List.filter_cons, h]

theorem mapGet_mapDelete {α : Type} (m : List (Str × α)) (k n : Str) :
    mapGet (mapDelete k m) n = if n = k then none else mapGet m n := by
  induction m with
  | nil => by_cases h : n = k <;> simp [mapGet, mapDelete, h]
  | cons par rest ih =>
    obtain ⟨k1, v1⟩ := par
    rw [mapDelete_cons]
    by_cases hk : k1 = k
    · rw [if_pos hk, ih, mapGet_cons]
      by_cases hn : n = k
      · simp [hn]
      · rw [if_neg hn, if_neg hn, if_neg (show ¬k1 = n by rw [hk]; exact fun hh => hn hh.symm)]
    · rw [if_neg hk, mapGet_cons, mapGet_cons, ih]
      by_cases hn : n = k
      · rw [if_pos hn, if_pos hn, if_neg (fun h => hk (h.trans hn))]
      · simp [hn]

theorem mapGet_append_left {α : Type} (m l2 : List (Str × α)) (n : Str) (v : α)
    (h : mapGet m n = some v) : mapGet (m ++ l2) n = some v := by
  rw [mapGet, List.find?_append]
  rw [mapGet] at h
  cases hf : List.find? (fun p => p.1 == n) m with
  | none => rw [hf] at h; simp at h
  | some par => rw [hf] at h; simpa using h

theorem mapGet_eliminarVariablesDe (anteriores : List CssVariable) (archivo : Str)
    (idx : IndiceVariables) (n : Str) :
    mapGet (eliminarVariablesDe anteriores archivo idx) n =
      if (anteriores.any (fun v => v.nombre == n)) && esDuenio idx n archivo then none
      else mapGet idx n := by
  induction anteriores generalizing idx with
  | nil => simp [eliminarVariablesDe]
  | cons v rest ih =>
    rw [eliminarVariablesDe, List.foldl_cons, ← eliminarVariablesDe, ih]
    by_cases hn : v.nombre = n
    · subst hn
      cases hget : mapGet idx v.nombre with
      | none => simp [hget, esDuenio]
      | some actual =>
        cases harch : actual.archivo == archivo with
        | false => simp [hget, harch, esDuenio]
        | true =>
          simp only [hget, harch, if_true]
          rw [mapGet_mapDelete, if_pos rfl]
          have hdu : esDuenio (mapDelete v.nombre idx) v.nombre archivo = false := by
            rw [esDuenio, mapGet_mapDelete, if_pos rfl]
          have hdu2 : esDuenio idx v.nombre archivo = true := by
            simp [esDuenio, hget, harch]
          simp [hdu, hdu2, mapGet_mapDelete]
    · have hne : (v.nombre == n) = false := by simp [hn]
      cases hget : mapGet idx v.nombre with
      | none => simp [hget, hne]
      | some actual =>
        cases harch : actual.archivo == archivo with
        | false => simp [hget, harch, hne]
        | true =>
          simp only [hget, harch, if_true]
          have hdu2 : esDuenio (mapDelete v.nombre idx) n archivo = esDuenio idx n archivo := by
            rw [esDuenio, esDuenio, mapGet_mapDelete, if_neg (Ne.symm hn)]
          rw [hdu2, mapGet_mapDelete, if_neg (Ne.symm hn)]
          simp [hne]

/-- Registration never overwrites a present name. -/
theorem mapGet_registrarVariables_some (listaVars : List CssVariable) (idx : IndiceVariables)
    (n : Str) (v : CssVariable) (h : mapGet idx n = some v) :
    mapGet (registrarVariables listaVars idx) n = some v := by
  induction listaVars generalizing idx with
  | nil => simpa [registrarVariables]
  | cons w rest ih =>
    rw [registrarVariables, List.foldl_cons, ← registrarVariables]
    by_cases hw : mapHas idx w.nombre
    · simp only [hw, if_true]
      exact ih idx h
    · have hw2 : mapHas idx w.nombre = false := by simpa using hw
      simp only [hw2, Bool.false_eq_true, if_false]
      exact ih _ (mapGet_append_left idx [(w.nombre, w)] n v h)

/-- C4: removing a file deletes from the global map exactly those names
previously contributed by the file whose currently recorded owner is the
file (first conjunct, an exact characterization of the lookup after
`eliminarArchivo`); the removal phase of an incremental update behaves
identically (second conjunct); and after a full incremental re-scan of a
file, any name currently owned by a different file keeps its binding
unchanged (third conjunct). -/
theorem eliminacion_exacta_por_archivo (st : ScannerState) (archivo texto n : Str) (ahora : Nat) :
    (mapGet (eliminarArchivo st archivo).cache.indice.vars n =
      (if (contribuidasPor st archivo).any (fun v => v.nombre == n) &&
          esDuenio st.cache.indice.vars n archivo then none
       else mapGet st.cache.indice.vars n)) ∧
    (mapGet (eliminarVariablesDe (contribuidasPor st archivo) archivo st.cache.indice.vars) n =
      (if (contribuidasPor st archivo).any (fun v => v.nombre == n) &&
          esDuenio st.cache.indice.vars n archivo then none
       else mapGet st.cache.indice.vars n)) ∧
    (∀ v : CssVariable, mapGet st.cache.indice.vars n = some v → v.archivo ≠ archivo →
      mapGet (actualizarArchivo st archivo texto ahora).cache.indice.vars n = some v) := by
  refine ⟨?_, mapGet_eliminarVariablesDe _ _ _ _, ?_⟩
  · rw [eliminarArchivo]
    cases hpa : mapGet st.cache.variablesPorArchivo archivo with
    | none => simp [contribuidasPor, hpa]
    | some listaVars =>
      simp only [contribuidasPor, hpa, Option.getD_some]
      exact mapGet_eliminarVariablesDe listaVars archivo st.cache.indice.vars n
  · intro v hv hdif
    rw [actualizarArchivo]
    dsimp only
    rw [procesarArchivo]
    dsimp only
    apply mapGet_registrarVariables_some
    rw [mapGet_eliminarVariablesDe]
    have : esDuenio st.cache.indice.vars n archivo = false := by
      rw [esDuenio, hv]
      simp [hdif]
    simp [this, hv]

/-- A concrete two-file state: both files declare `--x`, `a.css` owns it. -/
def estadoDosArchivos : ScannerState :=
  { escaneando := false
    cache := { valido := true
               indice := { vars := [(codes "--x", varDe (codes "--x") (codes "red"))]
                           ultimaActualizacion := 0
                           archivosEscaneados := [codes "a.css", codes "b.css"] }
               variablesPorArchivo :=
                 [(codes "a.css", [varDe (codes "--x") (codes "red")]),
                  (codes "b.css", [{ varDe (codes "--x") (codes "blue") with
                    archivo := codes "b.css" }])] } }

/-- C4: witness.  Deleting the losing file `b.css` leaves `--x` (owned by
`a.css`) in the map, and re-scanning `b.css` leaves it unchanged too. -/
theorem eliminacion_exacta_por_archivo_testigo :
    mapGet (eliminarArchivo estadoDosArchivos (codes "b.css")).cache.indice.vars (codes "--x") =
      some (varDe (codes "--x") (codes "red")) ∧
    mapGet (actualizarArchivo estadoDosArchivos (codes "b.css") (codes ".y \x7b --x: blue; \x7d")
        5).cache.indice.vars (codes "--x") = some (varDe (codes "--x") (codes "red")) := by
  constructor
  · rw [(eliminacion_exacta_por_archivo estadoDosArchivos (codes "b.css") [] (codes "--x") 5).1]
    decide
  · exact (eliminacion_exacta_por_archivo estadoDosArchivos (codes "b.css")
      (codes ".y \x7b --x: blue; \x7d") (codes "--x") 5).2.2 (varDe (codes "--x") (codes "red"))
      (by decide) (by decide)

/-! ## Claim about the diagnostic pipeline (C9) -/

/-- C9: a usage produces an undefined-variable diagnostic exactly when
its name is absent from both the global index and the set of
declarations parsed from the same document. -/
theorem diagnostico_no_definida_sii (idx : IndiceVariables) (resultadoParse : ParseResult)
    (uso : VariableUsage) (h : uso ∈ resultadoParse.usosVariables) :
    (({ uso := uso, codigo := 1 } : Diagnostico) ∈ detectarVariablesNoDefinidas idx resultadoParse)
      ↔ (mapHas idx uso.nombreVariable = false ∧
         (resultadoParse.variablesDefinidas.map (fun v => v.nombre)).contains
           uso.nombreVariable = false) := by
  rw [detectarVariablesNoDefinidas]
  constructor
  · intro hmem
    rcases List.mem_map.mp hmem with ⟨uso2, hmem2, heq⟩
    have : uso2 = uso := congrArg Diagnostico.uso heq
    subst this
    have hf := List.mem_filter.mp hmem2
    have := hf.2
    simp only [Bool.and_eq_true, Bool.not_eq_true'] at this
    exact this
  · intro ⟨h1, h2⟩
    apply List.mem_map.mpr
    refine ⟨uso, List.mem_filter.mpr ⟨h, ?_⟩, rfl⟩
    simp only [Bool.and_eq_true, Bool.not_eq_true']
    exact ⟨h1, h2⟩

/-- C9: witness on a one-usage document with an empty index and no local
declaration of the used name. -/
theorem diagnostico_no_definida_sii_testigo :
    (({ uso := { nombreVariable := codes "--c", linea := 0, columna := 3 }, codigo := 1 } :
        Diagnostico) ∈ detectarVariablesNoDefinidas []
          { variablesDefinidas := []
            usosVariables := [{ nombreVariable := codes "--c", linea := 0, columna := 3 }] })
      ↔ (mapHas ([] : IndiceVariables) (codes "--c") = false ∧
         (([] : List CssVariable).map (fun v => v.nombre)).contains (codes "--c") = false) :=
  diagnostico_no_definida_sii []
    { variablesDefinidas := []
      usosVariables := [{ nombreVariable := codes "--c", linea := 0, columna := 3 }] }
    { nombreVariable := codes "--c", linea := 0, columna := 3 } (by decide)

/-! ## Claim C7: scanned declarations carry the cleaned literal value -/

theorem mapGet_append_single {α : Type} (m : List (Str × α)) (k n : Str) (v : α) :
    mapGet (m ++ [(k, v)]) n =
      (mapGet m n).or (if k == n then some v else none) := by
  rw [mapGet, List.find?_append]
  cases hf : List.find? (fun p => p.1 == n) m with
  | some par => simp [mapGet, hf]
  | none =>
    rw [mapGet, hf]
    by_cases hk : k == n
    · simp [List.find?_cons, hk]
    · have hk2 : (k == n) = false := by simpa using hk
      simp [List.find?_cons, hk2]

theorem mapGet_registrarVariables (listaVars : List CssVariable) (m : IndiceVariables)
    (n : Str) :
    mapGet (registrarVariables listaVars m) n =
      (mapGet m n).or (listaVars.find? (fun v => v.nombre == n)) := by
  induction listaVars generalizing m with
  | nil => simp [registrarVariables, Option.or_none]
  | cons w rest ih =>
    rw [registrarVariables, List.foldl_cons, ← registrarVariables, ih, List.find?_cons]
    by_cases hw : mapHas m w.nombre
    · simp only [hw, if_true]
      cases hwn : (w.nombre == n) with
      | false => rfl
      | true =>
        have : w.nombre = n := by simpa using hwn
        subst this
        rw [mapHas] at hw
        cases hm : mapGet m w.nombre with
        | none => rw [hm] at hw; simp at hw
        | some x => simp [hm]
    · have hw2 : mapHas m w.nombre = false := by simpa using hw
      simp only [hw2, Bool.false_eq_true, if_false]
      rw [mapGet_append_single, Option.or_assoc]
      cases hwn : (w.nombre == n) with
      | false => rfl
      | true => simp

theorem mapGet_fold_procesar (archivos : List (Str × Str)) (s0 : ScannerState) (n : Str) :
    mapGet ((archivos.foldl (fun s par => procesarArchivo s par.1 par.2) s0).cache.indice.vars)
        n =
      (mapGet s0.cache.indice.vars n).or
        ((archivos.map (fun par => parsearSoloDefiniciones par.1 par.2)).flatten.find?
          (fun v => v.nombre == n)) := by
  induction archivos generalizing s0 with
  | nil => simp [Option.or_none]
  | cons par rest ih =>
    rw [List.foldl_cons, ih, List.map_cons, List.flatten_cons, List.find?_append]
    rw [procesarArchivo]
    dsimp only
    rw [mapGet_registrarVariables, Option.or_assoc]

/-- C7: after a full scan, the first declaration registered under a name
is retrievable, and its stored value is the raw matched text cleaned by
`extraerValorLimpio` (which strips `!important`, a trailing semicolon and
surrounding whitespace). -/
theorem escaneo_valor_limpio (st : ScannerState) (archivos : List (Str × Str)) (ahora : Nat)
    (n : Str) (v : CssVariable)
    (hEsc : st.escaneando = false)
    (hFind : ((archivos.map (fun par => parsearSoloDefiniciones par.1 par.2)).flatten.find?
        (fun w => w.nombre == n)) = some v) :
    mapGet ((escanear st archivos true ahora).1.cache.indice.vars) n = some v ∧
    ∃ par ∈ archivos, ∃ m ∈ buscarDefiniciones par.2,
      v.nombre = m.nombre ∧ v.valor = extraerValorLimpio m.crudo ∧ v.archivo = par.1 := by
  constructor
  · rw [escanear]
    simp only [hEsc, Bool.false_eq_true, if_false, Bool.not_true, Bool.and_false]
    rw [mapGet_fold_procesar]
    rw [show mapGet ([] : IndiceVariables) n = none from rfl, Option.none_or]
    exact hFind
  · have hv : v ∈ (archivos.map (fun par => parsearSoloDefiniciones par.1 par.2)).flatten :=
      List.mem_of_find?_eq_some hFind
    rcases List.mem_flatten.mp hv with ⟨l, hl, hvl⟩
    rcases List.mem_map.mp hl with ⟨par, hpar, rfl⟩
    rcases List.mem_map.mp hvl with ⟨m, hm, rfl⟩
    exact ⟨par, hpar, m, hm, rfl, rfl, rfl⟩

/-- A fresh scanner state. -/
def estadoInicial : ScannerState :=
  { escaneando := false
    cache := { valido := false
               indice := { vars := [], ultimaActualizacion := 0, archivosEscaneados := [] }
               variablesPorArchivo := [] } }

/-- C7: witness.  Scanning one file containing
a rule declaring `--c` as `#fff !important` makes `--c` retrievable with the
cleaned value `#fff`. -/
theorem escaneo_valor_limpio_testigo :
    mapGet ((escanear estadoInicial
        [(codes "a.css", codes ":root \x7b --c: #fff !important; \x7d")] true 3).1.cache.indice.vars)
      (codes "--c") =
      some { nombre := codes "--c", valor := codes "#fff", archivo := codes "a.css"
             linea := 0, columna := 8, esColor := true, frecuenciaUso := 0 } :=
  (escaneo_valor_limpio estadoInicial
    [(codes "a.css", codes ":root \x7b --c: #fff !important; \x7d")] 3 (codes "--c")
    { nombre := codes "--c", valor := codes "#fff", archivo := codes "a.css"
      linea := 0, columna := 8, esColor := true, frecuenciaUso := 0 }
    rfl (by decide)).1

/-! ## Claim C5: comment stripping is length- and offset-stable -/

theorem findSub2_bound (a b : Nat) (l : Str) (i : Nat) (h : findSub2 a b l = some i) :
    i + 2 ≤ l.length := by
  induction l generalizing i with
  | nil => simp [findSub2] at h
  | cons x rest ih =>
    cases rest with
    | nil => simp [findSub2] at h
    | cons y rest2 =>
      rw [findSub2] at h
      by_cases hab : x = a ∧ y = b
      · rw [if_pos hab] at h
        cases h
        simp
      · rw [if_neg hab] at h
        cases hf : findSub2 a b (y :: rest2) with
        | none => rw [hf] at h; simp at h
        | some j =>
          rw [hf, Option.map_some'] at h
          have hj := ih j hf
          have hji : j + 1 = i := Option.some.inj h
          simp only [List.length_cons] at hj ⊢
          omega

theorem getD_take (l : Str) (m i : Nat) (h : i < m) :
    (l.take m).getD i 0 = l.getD i 0 := by
  simp [List.getD_eq_getElem?_getD, List.getElem?_take_of_lt h]

theorem getD_drop (l : Str) (m j : Nat) : (l.drop m).getD j 0 = l.getD (m + j) 0 := by
  induction m generalizing l with
  | zero => simp
  | succ m2 ih =>
    cases l with
    | nil => simp
    | cons c rest => simp [List.drop_succ_cons, ih, Nat.succ_add]

theorem getD_replicate32 (n j : Nat) (h : j < n) :
    (List.replicate n (32 : Nat)).getD j 0 = 32 := by
  simp [List.getD_eq_getElem?_getD, List.getElem?_replicate_of_lt h]

theorem eliminarComentariosAux_some (fuel : Nat) (l : Str) (i0 k : Nat)
    (h1 : findSub2 47 42 l = some i0) (h2 : findSub2 42 47 (l.drop (i0 + 2)) = some k) :
    eliminarComentariosAux (fuel + 1) l =
      l.take i0 ++ List.replicate (k + 4) 32 ++
        eliminarComentariosAux fuel (l.drop (i0 + 2 + (k + 2))) := by
  simp only [eliminarComentariosAux, h1, h2, List.drop_drop]

theorem eliminarComentariosAux_sin1 (fuel : Nat) (l : Str)
    (h1 : findSub2 47 42 l = none) : eliminarComentariosAux (fuel + 1) l = l := by
  simp only [eliminarComentariosAux, h1]

theorem eliminarComentariosAux_sin2 (fuel : Nat) (l : Str) (i0 : Nat)
    (h1 : findSub2 47 42 l = some i0) (h2 : findSub2 42 47 (l.drop (i0 + 2)) = none) :
    eliminarComentariosAux (fuel + 1) l = l := by
  simp only [eliminarComentariosAux, h1, h2]

theorem comentarioRegionesAux_some (fuel : Nat) (l : Str) (base i0 k : Nat)
    (h1 : findSub2 47 42 l = some i0) (h2 : findSub2 42 47 (l.drop (i0 + 2)) = some k) :
    comentarioRegionesAux (fuel + 1) l base =
      (base + i0, k + 4) ::
        comentarioRegionesAux fuel (l.drop (i0 + 2 + (k + 2))) (base + i0 + k + 4) := by
  simp only [comentarioRegionesAux, h1, h2, List.drop_drop]

theorem comentarioRegionesAux_sin1 (fuel : Nat) (l : Str) (base : Nat)
    (h1 : findSub2 47 42 l = none) : comentarioRegionesAux (fuel + 1) l base = [] := by
  simp only [comentarioRegionesAux, h1]

theorem comentarioRegionesAux_sin2 (fuel : Nat) (l : Str) (base i0 : Nat)
    (h1 : findSub2 47 42 l = some i0) (h2 : findSub2 42 47 (l.drop (i0 + 2)) = none) :
    comentarioRegionesAux (fuel + 1) l base = [] := by
  simp only [comentarioRegionesAux, h1, h2]

theorem comentarioRegionesAux_shift (fuel : Nat) (l : Str) (base : Nat) :
    comentarioRegionesAux fuel l base =
      (comentarioRegionesAux fuel l 0).map (fun r => (r.1 + base, r.2)) := by
  induction fuel generalizing l base with
  | zero => rfl
  | succ fuel ih =>
    cases h1 : findSub2 47 42 l with
    | none => rw [comentarioRegionesAux_sin1 _ _ _ h1, comentarioRegionesAux_sin1 _ _ _ h1]; rfl
    | some i0 =>
      cases h2 : findSub2 42 47 (l.drop (i0 + 2)) with
      | none =>
        rw [comentarioRegionesAux_sin2 _ _ _ _ h1 h2, comentarioRegionesAux_sin2 _ _ _ _ h1 h2]
        rfl
      | some k =>
        rw [comentarioRegionesAux_some _ _ _ _ _ h1 h2,
          comentarioRegionesAux_some _ _ 0 _ _ h1 h2, List.map_cons]
        rw [ih _ (base + i0 + k + 4), ih _ (0 + i0 + k + 4), List.map_map]
        congr 1
        · simp [Nat.add_comm]
        · apply List.map_congr_left
          intro r _
          simp only [Function.comp_apply]
          congr 1
          omega

theorem any_region_shift (X : List (Nat × Nat)) (s i : Nat) (hs : s ≤ i) :
    ((X.map (fun r => (r.1 + s, r.2))).any (fun r => r.1 ≤ i && i < r.1 + r.2)) =
      X.any (fun r => r.1 ≤ i - s && i - s < r.1 + r.2) := by
  rw [List.any_map]
  induction X with
  | nil => rfl
  | cons r X ih =>
    simp only [List.any_cons, ih]
    congr 1
    simp only [Function.comp_apply]
    rw [← Bool.decide_and, ← Bool.decide_and, decide_eq_decide]
    omega

theorem any_region_shift_low (X : List (Nat × Nat)) (s i : Nat) (hi : i < s) :
    ((X.map (fun r => (r.1 + s, r.2))).any (fun r => r.1 ≤ i && i < r.1 + r.2)) = false := by
  rw [List.any_eq_false]
  intro x hx
  rcases List.mem_map.mp hx with ⟨r, _, rfl⟩
  simp only [Bool.and_eq_true, decide_eq_true_eq, not_and]
  intro h1
  omega

theorem eliminarComentariosAux_spec (fuel : Nat) (l : Str) :
    (eliminarComentariosAux fuel l).length = l.length ∧
    (∀ i : Nat, (eliminarComentariosAux fuel l).getD i 0 =
      if (comentarioRegionesAux fuel l 0).any (fun r => r.1 ≤ i && i < r.1 + r.2) then 32
      else l.getD i 0) := by
  induction fuel generalizing l with
  | zero => exact ⟨rfl, fun i => rfl⟩
  | succ fuel ih =>
    cases h1 : findSub2 47 42 l with
    | none =>
      rw [eliminarComentariosAux_sin1 _ _ h1, comentarioRegionesAux_sin1 _ _ _ h1]
      exact ⟨rfl, fun i => rfl⟩
    | some i0 =>
      cases h2 : findSub2 42 47 (l.drop (i0 + 2)) with
      | none =>
        rw [eliminarComentariosAux_sin2 _ _ _ h1 h2, comentarioRegionesAux_sin2 _ _ _ _ h1 h2]
        exact ⟨rfl, fun i => rfl⟩
      | some k =>
        rw [eliminarComentariosAux_some _ _ _ _ h1 h2, comentarioRegionesAux_some _ _ _ _ _ h1 h2]
        have hb1 := findSub2_bound _ _ _ _ h1
        have hb2 := findSub2_bound _ _ _ _ h2
        rw [List.length_drop] at hb2
        obtain ⟨ihl, ihg⟩ := ih (l.drop (i0 + 2 + (k + 2)))
        have htake : (l.take i0).length = i0 := by
          rw [List.length_take]; omega
        constructor
        · rw [List.length_append, List.length_append, htake,
            List.length_replicate, ihl, List.length_drop]
          omega
        · intro i
          rw [comentarioRegionesAux_shift, List.any_cons, List.any_map]
          have hlen2 : (l.take i0 ++ List.replicate (k + 4) (32 : Nat)).length = i0 + (k + 4) := by
            rw [List.length_append, htake, List.length_replicate]
          by_cases hA : i < i0
          · rw [List.getD_append _ _ _ _ (by omega : i < (l.take i0 ++ List.replicate (k + 4) (32 : Nat)).length)]
            rw [List.getD_append _ _ _ _ (by omega : i < (l.take i0).length)]
            rw [getD_take _ _ _ hA]
            have hcab : (decide (0 + i0 ≤ i) && decide (i < 0 + i0 + (k + 4))) = false := by
              rw [← Bool.decide_and, decide_eq_false_iff_not]
              omega
            have hcola : (comentarioRegionesAux fuel (l.drop (i0 + 2 + (k + 2))) 0).any
                ((fun r => decide (r.1 ≤ i) && decide (i < r.1 + r.2)) ∘
                  fun r => (r.1 + (0 + i0 + k + 4), r.2)) = false := by
              rw [← List.any_map]
              exact any_region_shift_low _ _ _ (by omega)
            rw [hcab, hcola]
            rfl
          · by_cases hB : i < i0 + (k + 4)
            · rw [List.getD_append _ _ _ _ (by omega : i < (l.take i0 ++ List.replicate (k + 4) (32 : Nat)).length)]
              rw [List.getD_append_right _ _ _ _ (by omega : (l.take i0).length ≤ i)]
              rw [htake]
              rw [getD_replicate32 _ _ (by omega)]
              have hcab : (decide (0 + i0 ≤ i) && decide (i < 0 + i0 + (k + 4))) = true := by
                rw [← Bool.decide_and, decide_eq_true_eq]
                omega
              rw [hcab]
              rfl
            · rw [List.getD_append_right _ _ _ _
                (by omega : (l.take i0 ++ List.replicate (k + 4) (32 : Nat)).length ≤ i)]
              rw [hlen2, ihg]
              rw [getD_drop]
              have hidx : i0 + 2 + (k + 2) + (i - (i0 + (k + 4))) = i := by omega
              rw [hidx]
              have hcab : (decide (0 + i0 ≤ i) && decide (i < 0 + i0 + (k + 4))) = false := by
                rw [← Bool.decide_and, decide_eq_false_iff_not]
                omega
              have hcola : (comentarioRegionesAux fuel (l.drop (i0 + 2 + (k + 2))) 0).any
                  ((fun r => decide (r.1 ≤ i) && decide (i < r.1 + r.2)) ∘
                    fun r => (r.1 + (0 + i0 + k + 4), r.2)) =
                  (comentarioRegionesAux fuel (l.drop (i0 + 2 + (k + 2))) 0).any
                    (fun r => decide (r.1 ≤ i - (i0 + (k + 4))) &&
                      decide (i - (i0 + (k + 4)) < r.1 + r.2)) := by
                rw [← List.any_map, any_region_shift _ _ _ (by omega)]
                have heq2 : i - (0 + i0 + k + 4) = i - (i0 + (k + 4)) := by omega
                rw [heq2]
              rw [hcab, hcola]
              rfl

/-- C5: the comment-stripping step keeps the length of the document
text, keeps every character outside a comment unchanged at its original
offset, and replaces every character inside a comment by a space
(code point 32).  Positions beyond the text agree trivially on the
default. -/
theorem eliminar_comentarios_estable (texto : Str) :
    (eliminarComentarios texto).length = texto.length ∧
    (∀ i : Nat, (eliminarComentarios texto).getD i 0 =
      if dentroDeComentario texto i then 32 else texto.getD i 0) :=
  eliminarComentariosAux_spec texto.length texto

/-! ## The hardcoded classification against the spec wording (claim C6) -/

/-- Boolean extensionality through the propositional coercion. -/
theorem boolIff {a b : Bool} (h : a = true ↔ b = true) : a = b := by
  cases a <;> cases b <;> simp_all

theorem all_pointwise (p q : Nat → Bool) (h : ∀ c, p c = q c) (l : Str) :
    l.all p = l.all q := by
  induction l with
  | nil => rfl
  | cons c rest ih => simp [List.all_cons, h c, ih]

theorem dropWhile_dropWhile (p : Nat → Bool) (l : Str) :
    (l.dropWhile p).dropWhile p = l.dropWhile p := by
  induction l with
  | nil => rfl
  | cons c rest ih =>
    by_cases h : p c
    · simp [List.dropWhile_cons_of_pos h, ih]
    · simp [List.dropWhile_cons_of_neg h]

theorem dropWhile_length_le (p : Nat → Bool) (l : Str) :
    (l.dropWhile p).length ≤ l.length := by
  induction l with
  | nil => exact Nat.le_refl 0
  | cons c rest ih =>
    by_cases h : p c
    · rw [List.dropWhile_cons_of_pos h]
      exact Nat.le_succ_of_le ih
    · rw [List.dropWhile_cons_of_neg h]

theorem dropWhile_prefix_self (p : Nat → Bool) (B t : Str)
    (h : List.dropWhile p (B ++ t) = B ++ t) : List.dropWhile p B = B := by
  cases B with
  | nil => rfl
  | cons b B2 =>
    by_cases hp : p b
    · exfalso
      rw [List.cons_append, List.dropWhile_cons_of_pos hp] at h
      have hlen := congrArg List.length h
      have hle := dropWhile_length_le p (B2 ++ t)
      simp only [List.length_cons, List.length_append] at hlen hle
      omega
    · rw [List.dropWhile_cons_of_neg hp]

theorem rdropWhile_idem (p : Nat → Bool) (X : Str) :
    (X.rdropWhile p).rdropWhile p = X.rdropWhile p := by
  unfold List.rdropWhile
  rw [List.reverse_reverse, dropWhile_dropWhile]

theorem trimStr_rdrop (l : Str) : trimStr l = (l.dropWhile isWs).rdropWhile isWs := rfl

/-- Trimming is idempotent. -/
theorem trimStr_idem (l : Str) : trimStr (trimStr l) = trimStr l := by
  rw [trimStr_rdrop l, trimStr_rdrop]
  obtain ⟨t, ht⟩ := List.rdropWhile_prefix isWs (l.dropWhile isWs)
  have hA : List.dropWhile isWs ((l.dropWhile isWs).rdropWhile isWs) =
      (l.dropWhile isWs).rdropWhile isWs := by
    apply dropWhile_prefix_self isWs _ t
    rw [ht]
    exact dropWhile_dropWhile isWs l
  rw [hA, rdropWhile_idem]

theorem lowerCode_idem (c : Nat) : lowerCode (lowerCode c) = lowerCode c := by
  unfold lowerCode
  split
  · rw [if_neg (by omega)]
  · rfl

/-- Lowercasing is idempotent. -/
theorem lowerStr_idem (l : Str) : lowerStr (lowerStr l) = lowerStr l := by
  simp only [lowerStr, List.map_map]
  exact List.map_congr_left (fun c _ => lowerCode_idem c)

theorem lowerCode_35 (c : Nat) (h : lowerCode c = 35) : c = 35 := by
  unfold lowerCode at h
  split at h <;> omega

/-- Hex-digit status is invariant under lowercasing. -/
theorem lowerCode_hexDig (c : Nat) : isHexDig (lowerCode c) = isHexDig c := by
  apply boolIff
  simp only [isHexDig, isDigit, lowerCode, Bool.or_eq_true, Bool.and_eq_true,
    decide_eq_true_eq]
  split
  · next h => omega
  · exact Iff.rfl

/-- The anchored hex pattern is case-insensitive. -/
theorem hexHardMatch_lower (w : Str) : hexHardMatch (lowerStr w) = hexHardMatch w := by
  cases w with
  | nil => rfl
  | cons c rest =>
    show hexHardMatch (lowerCode c :: lowerStr rest) = hexHardMatch (c :: rest)
    simp only [hexHardMatch]
    simp only [lowerStr, List.length_map, List.all_map]
    rw [all_pointwise (isHexDig ∘ lowerCode) isHexDig (fun d => lowerCode_hexDig d) rest]
    have hcab : (lowerCode c == 35) = (c == 35) := by
      apply boolIff
      simp only [beq_iff_eq]
      exact ⟨fun h => lowerCode_35 c h, fun h => by subst h; rfl⟩
    rw [hcab]

theorem hex3Exec_hard (L : Str) (h : (hex3Exec L).isSome = true) :
    hexHardMatch L = true := by
  rw [hex3Exec.eq_def] at h
  split at h
  · split at h
    · simp_all [hexHardMatch]
    · simp at h
  · simp at h

theorem hex4Exec_hard (L : Str) (h : (hex4Exec L).isSome = true) :
    hexHardMatch L = true := by
  rw [hex4Exec.eq_def] at h
  split at h
  · split at h
    · simp_all [hexHardMatch]
    · simp at h
  · simp at h

theorem hex6Exec_hard (L : Str) (h : (hex6Exec L).isSome = true) :
    hexHardMatch L = true := by
  rw [hex6Exec.eq_def] at h
  split at h
  · split at h
    · simp_all [hexHardMatch]
    · simp at h
  · simp at h

theorem hex8Exec_hard (L : Str) (h : (hex8Exec L).isSome = true) :
    hexHardMatch L = true := by
  rw [hex8Exec.eq_def] at h
  split at h
  · split at h
    · simp_all [hexHardMatch]
    · simp at h
  · simp at h

theorem rgbCore_fn (w : Str) (h : (rgbCore (lowerStr w)).isSome = true) :
    rgbFnMatch w = true := by
  rw [rgbCore.eq_def] at h
  split at h
  · next r0 heq => simp [rgbFnMatch, heq, List.dropWhile_cons, isWs]
  · simp at h

theorem rgbaCore_fn (w : Str) (h : (rgbaCore (lowerStr w)).isSome = true) :
    rgbFnMatch w = true := by
  rw [rgbaCore.eq_def] at h
  split at h
  · next r0 heq => simp [rgbFnMatch, heq, List.dropWhile_cons, isWs]
  · simp at h

theorem rgbModernCore_fn (w : Str) (h : (rgbModernCore (lowerStr w)).isSome = true) :
    rgbFnMatch w = true := by
  rw [rgbModernCore.eq_def] at h
  split at h
  · next r0 heq => simp [rgbFnMatch, heq, List.dropWhile_cons, isWs]
  · simp at h

theorem hslCore_fn (w : Str) (h : (hslCore (lowerStr w)).isSome = true) :
    hslFnMatch w = true := by
  rw [hslCore.eq_def] at h
  split at h
  · next r0 heq => simp [hslFnMatch, heq, List.dropWhile_cons, isWs]
  · simp at h

theorem hslaCore_fn (w : Str) (h : (hslaCore (lowerStr w)).isSome = true) :
    hslFnMatch w = true := by
  rw [hslaCore.eq_def] at h
  split at h
  · next r0 heq => simp [hslFnMatch, heq, List.dropWhile_cons, isWs]
  · simp at h

theorem hslModernCore_fn (w : Str) (h : (hslModernCore (lowerStr w)).isSome = true) :
    hslFnMatch w = true := by
  rw [hslModernCore.eq_def] at h
  split at h
  · next r0 heq => simp [hslFnMatch, heq, List.dropWhile_cons, isWs]
  · simp at h

/-- The classification exactly as the spec words it: the trimmed value
does not contain `var(`, and it matches a 3/4/6/8-digit hex color, an
`rgb(`/`rgba(` function prefix, an `hsl(`/`hsla(` function prefix
(the prefix patterns allow spaces before the parenthesis, as the code's
prefix patterns do), a number with a recognized CSS unit, or a name the
color table recognizes. -/
def esValorHardcodeadoSegunSpec (valor : Str) : Bool :=
  let valorLimpio := trimStr valor
  !containsSub valorLimpio (codes "var(") &&
    (hexHardMatch valorLimpio || rgbFnMatch valorLimpio || hslFnMatch valorLimpio ||
     numericoMatch valorLimpio || (buscarNombrado (lowerStr valorLimpio)).isSome)

/-- C6: `esValorHardcodeado` returns true exactly when the value has no
`var(` substring and matches a hex color, an rgb/hsl function prefix, a
number with a recognized CSS unit, or a recognized color name — the
trailing `esColor` fallback accepts nothing beyond the named colors that
the leading patterns do not already accept; in particular
`var(--size)` is classified false and `16px`, `#fff`, `rgb(255,0,0)`
are classified true. -/
theorem clasificacion_hardcoded_sii :
    (∀ valor : Str, esValorHardcodeado valor = esValorHardcodeadoSegunSpec valor) ∧
    esValorHardcodeado (codes "var(--size)") = false ∧
    esValorHardcodeado (codes "16px") = true ∧
    esValorHardcodeado (codes "#fff") = true ∧
    esValorHardcodeado (codes "rgb(255,0,0)") = true := by
  refine ⟨?_, by decide, by decide, by decide, by decide⟩
  intro valor
  have htrim : trimStr (trimStr valor) = trimStr valor := trimStr_idem valor
  simp only [esValorHardcodeado, esValorHardcodeadoSegunSpec]
  cases hc : containsSub (trimStr valor) (codes "var(") with
  | true => simp [hc]
  | false =>
    simp only [hc, Bool.false_eq_true, if_false, Bool.not_false, Bool.true_and]
    simp only [esColor, htrim, rgbExec, rgbaExec, rgbModernExec, hslExec, hslaExec,
      hslModernExec, lowerStr_idem]
    cases hA : hexHardMatch (trimStr valor) <;>
      cases hB : rgbFnMatch (trimStr valor) <;>
        cases hC2 : hslFnMatch (trimStr valor) <;>
          cases hD : numericoMatch (trimStr valor) <;>
            simp only [Bool.false_or, Bool.true_or, Bool.or_true, Bool.or_false]
    have h3 : (hex3Exec (lowerStr (trimStr valor))).isSome = false := by
      cases hx : (hex3Exec (lowerStr (trimStr valor))).isSome
      · rfl
      · have hT := hex3Exec_hard (lowerStr (trimStr valor)) hx
        rw [hexHardMatch_lower, hA] at hT
        exact hT.symm
    have h4 : (hex4Exec (lowerStr (trimStr valor))).isSome = false := by
      cases hx : (hex4Exec (lowerStr (trimStr valor))).isSome
      · rfl
      · have hT := hex4Exec_hard (lowerStr (trimStr valor)) hx
        rw [hexHardMatch_lower, hA] at hT
        exact hT.symm
    have h6 : (hex6Exec (lowerStr (trimStr valor))).isSome = false := by
      cases hx : (hex6Exec (lowerStr (trimStr valor))).isSome
      · rfl
      · have hT := hex6Exec_hard (lowerStr (trimStr valor)) hx
        rw [hexHardMatch_lower, hA] at hT
        exact hT.symm
    have h8 : (hex8Exec (lowerStr (trimStr valor))).isSome = false := by
      cases hx : (hex8Exec (lowerStr (trimStr valor))).isSome
      · rfl
      · have hT := hex8Exec_hard (lowerStr (trimStr valor)) hx
        rw [hexHardMatch_lower, hA] at hT
        exact hT.symm
    have hrc : (rgbCore (lowerStr (trimStr valor))).isSome = false := by
      cases hx : (rgbCore (lowerStr (trimStr valor))).isSome
      · rfl
      · have hT := rgbCore_fn (trimStr valor) hx
        rw [hB] at hT
        exact hT.symm
    have hra : (rgbaCore (lowerStr (trimStr valor))).isSome = false := by
      cases hx : (rgbaCore (lowerStr (trimStr valor))).isSome
      · rfl
      · have hT := rgbaCore_fn (trimStr valor) hx
        rw [hB] at hT
        exact hT.symm
    have hrm : (rgbModernCore (lowerStr (trimStr valor))).isSome = false := by
      cases hx : (rgbModernCore (lowerStr (trimStr valor))).isSome
      · rfl
      · have hT := rgbModernCore_fn (trimStr valor) hx
        rw [hB] at hT
        exact hT.symm
    have hsc : (hslCore (lowerStr (trimStr valor))).isSome = false := by
      cases hx : (hslCore (lowerStr (trimStr valor))).isSome
      · rfl
      · have hT := hslCore_fn (trimStr valor) hx
        rw [hC2] at hT
        exact hT.symm
    have hsa : (hslaCore (lowerStr (trimStr valor))).isSome = false := by
      cases hx : (hslaCore (lowerStr (trimStr valor))).isSome
      · rfl
      · have hT := hslaCore_fn (trimStr valor) hx
        rw [hC2] at hT
        exact hT.symm
    have hsm : (hslModernCore (lowerStr (trimStr valor))).isSome = false := by
      cases hx : (hslModernCore (lowerStr (trimStr valor))).isSome
      · rfl
      · have hT := hslModernCore_fn (trimStr valor) hx
        rw [hC2] at hT
        exact hT.symm
    simp only [h3, h4, h6, h8, hrc, hra, hrm, hsc, hsa, hsm, Bool.or_false]


/-! ## The color detector against the color parser (claim C10) -/

/-- C10 (amended): on inputs with no leading or trailing whitespace the
color detector and the color parser agree — `esColor` is true exactly
when `parsearColor` returns a result.  On untrimmed inputs they diverge,
because the function-form patterns of the parser run on the raw string
while the detector trims first. -/
theorem colores_acuerdo_recortado (valor : Str) (htr : trimStr valor = valor) :
    esColor valor = (parsearColor valor).isSome := by
  simp only [esColor, parsearColor, htr, rgbExec, rgbaExec, rgbModernExec, hslExec,
    hslaExec, hslModernExec, lowerStr_idem]
  cases hN : buscarNombrado (lowerStr valor) with
  | some hx =>
    simp only [hN, Option.isSome_some, Bool.true_or]
    split <;> rfl
  | none =>
    simp only [hN, Option.isSome_none, Bool.false_or]
    cases h3 : hex3Exec (lowerStr valor) with
    | some t =>
      obtain ⟨d1, d2, d3⟩ := t
      simp only [h3, Option.isSome_some, Bool.true_or]
    | none =>
      simp only [h3, Option.isSome_none, Bool.false_or]
      cases h4 : hex4Exec (lowerStr valor) with
      | some t =>
        obtain ⟨d1, d2, d3, d4⟩ := t
        simp only [h4, Option.isSome_some, Bool.true_or]
      | none =>
        simp only [h4, Option.isSome_none, Bool.false_or]
        cases h6 : hex6Exec (lowerStr valor) with
        | some t =>
          obtain ⟨d1, d2, d3, d4, d5, d6⟩ := t
          simp only [h6, Option.isSome_some, Bool.true_or]
        | none =>
          simp only [h6, Option.isSome_none, Bool.false_or]
          cases h8 : hex8Exec (lowerStr valor) with
          | some t =>
            obtain ⟨d1, d2, d3, d4, d5, d6, d7, d8⟩ := t
            simp only [h8, Option.isSome_some, Bool.true_or]
          | none =>
            simp only [h8, Option.isSome_none, Bool.false_or]
            cases hrc : rgbCore (lowerStr valor) with
            | some t =>
              obtain ⟨n1, n2, n3⟩ := t
              simp only [hrc, Option.isSome_some, Bool.true_or]
            | none =>
              simp only [hrc, Option.isSome_none, Bool.false_or]
              cases hra : rgbaCore (lowerStr valor) with
              | some t =>
                obtain ⟨n1, n2, n3, crudo⟩ := t
                simp only [hra, Option.isSome_some, Bool.true_or]
              | none =>
                simp only [hra, Option.isSome_none, Bool.false_or]
                cases hrm : rgbModernCore (lowerStr valor) with
                | some t =>
                  obtain ⟨n1, n2, n3, al⟩ := t
                  simp only [hrm, Option.isSome_some, Bool.true_or]
                | none =>
                  simp only [hrm, Option.isSome_none, Bool.false_or]
                  cases hsc : hslCore (lowerStr valor) with
                  | some t =>
                    obtain ⟨n1, n2, n3⟩ := t
                    simp only [hsc, Option.isSome_some, Bool.true_or]
                  | none =>
                    simp only [hsc, Option.isSome_none, Bool.false_or]
                    cases hsa : hslaCore (lowerStr valor) with
                    | some t =>
                      obtain ⟨n1, n2, n3, crudo⟩ := t
                      simp only [hsa, Option.isSome_some, Bool.true_or]
                    | none =>
                      simp only [hsa, Option.isSome_none, Bool.false_or]
                      cases hsm : hslModernCore (lowerStr valor) with
                      | some t =>
                        obtain ⟨n1, n2, n3, al⟩ := t
                        simp only [hsm, Option.isSome_some, Bool.true_or]
                      | none =>
                        simp only [hsm, Option.isSome_none]

/-- Witness for the amended C10 agreement at a concrete trimmed input. -/
theorem colores_acuerdo_recortado_testigo :
    trimStr (codes "#fff") = codes "#fff" ∧
    esColor (codes "#fff") = (parsearColor (codes "#fff")).isSome :=
  ⟨by decide, colores_acuerdo_recortado (codes "#fff") (by decide)⟩

/-- C10 counterexample: with a leading space the detector accepts
` rgb(0, 0, 0)` (it trims before matching) while the parser rejects it
(its function-form patterns run on the raw, untrimmed string), so the
two do not accept the same set of strings. -/
theorem colores_acuerdo_contraejemplo :
    esColor (codes " rgb(0, 0, 0)") = true ∧
    parsearColor (codes " rgb(0, 0, 0)") = none :=
  ⟨by decide, by decide⟩


/-! ## Round trip between the parser and `rgbAHex` (claim C3) -/

/-- A lowercase hexadecimal digit: a decimal digit or `a`–`f`.  The hex
captures of `parsearColor` only contain such code points, because the
hex patterns run on the lowercased copy of the input. -/
def isLowerHex (c : Nat) : Bool := isDigit c || (97 ≤ c && c ≤ 102)

theorem lowerHex_spec (c : Nat) (h : isLowerHex c = true) :
    hexDigitVal c ≤ 15 ∧ hexDigitCode (hexDigitVal c) = c := by
  simp only [isLowerHex, isDigit, Bool.or_eq_true, Bool.and_eq_true,
    decide_eq_true_eq] at h
  unfold hexDigitVal hexDigitCode
  split_ifs <;> omega

theorem hexDigitVal_le (d : Nat) (h : isHexDig d = true) : hexDigitVal d ≤ 15 := by
  simp only [isHexDig, isDigit, Bool.or_eq_true, Bool.and_eq_true,
    decide_eq_true_eq] at h
  unfold hexDigitVal
  split_ifs <;> omega

/-- A hex digit found in a lowercased string is a lowercase hex digit. -/
theorem isLowerHex_en (X : Str) (d : Nat) (hd : d ∈ lowerStr X)
    (h1 : isHexDig d = true) : isLowerHex d = true := by
  rw [lowerStr, List.mem_map] at hd
  obtain ⟨c, _, rfl⟩ := hd
  simp only [isHexDig, isDigit, Bool.or_eq_true, Bool.and_eq_true,
    decide_eq_true_eq] at h1
  simp only [isLowerHex, isDigit, Bool.or_eq_true, Bool.and_eq_true,
    decide_eq_true_eq]
  unfold lowerCode at h1 ⊢
  split at h1 <;> [skip; skip] <;> split <;> omega

theorem jsRound_nat (n : ℕ) : jsRound ((n : ℚ)) = (n : ℤ) := by
  unfold jsRound
  have h1 : ((n : ℚ)) = (((n : ℤ)) : ℚ) := by push_cast; ring
  rw [h1, Int.floor_int_add]
  have h12 : ⌊(1 / 2 : ℚ)⌋ = 0 := by
    rw [Int.floor_eq_iff]
    norm_num
  rw [h12]
  omega

theorem toHexPair_length (q : ℚ) : (toHexPair q).length = 2 := by
  simp only [toHexPair]
  split <;> simp

/-- Rendering the byte value of a lowercase hex pair gives back the pair. -/
theorem toHexPair_pairVal (a b : Nat) (ha : isLowerHex a = true)
    (hb : isLowerHex b = true) :
    toHexPair ((pairVal a b : ℕ) : ℚ) = [a, b] := by
  obtain ⟨hva, hca⟩ := lowerHex_spec a ha
  obtain ⟨hvb, hcb⟩ := lowerHex_spec b hb
  have hpair : pairVal a b = 16 * hexDigitVal a + hexDigitVal b := rfl
  have hr : jsRound ((pairVal a b : ℕ) : ℚ) = ((pairVal a b : ℕ) : ℤ) := jsRound_nat _
  have hclamp : clamp255 ((pairVal a b : ℕ) : ℤ) = pairVal a b := by
    unfold clamp255
    omega
  simp only [toHexPair, hr, hclamp]
  by_cases h16 : pairVal a b < 16
  · have hva0 : hexDigitVal a = 0 := by omega
    have hpv : pairVal a b = hexDigitVal b := by omega
    have ha48 : a = 48 := by
      rw [← hca, hva0]
      decide
    rw [if_pos h16, hpv, hcb, ha48]
    simp
  · have hdiv : pairVal a b / 16 = hexDigitVal a := by omega
    have hmod : pairVal a b % 16 = hexDigitVal b := by omega
    rw [if_neg h16, hdiv, hmod, hca, hcb]
    simp

/-- Passing an alpha of exactly one is the same as passing no alpha. -/
theorem rgbAHex_uno (r g b : ℚ) :
    rgbAHex r g b (some (.val 1)) = rgbAHex r g b none := by
  simp only [rgbAHex]
  rw [if_neg (lt_irrefl (1 : ℚ))]

theorem rgbAHex_length_none (r g b : ℚ) : (rgbAHex r g b none).length = 7 := by
  simp [rgbAHex, toHexPair_length]

/-- A nine-character `rgbAHex` result forces an alpha below one. -/
theorem rgbAHex_nueve (r g b : ℚ) (a : JsNum)
    (h : (rgbAHex r g b (some a)).length = 9) : a.ltUno = true := by
  cases a with
  | nan => simp [rgbAHex, toHexPair_length] at h
  | val q =>
    by_cases hq : q < 1
    · simp [JsNum.ltUno, hq]
    · simp [rgbAHex, toHexPair_length, hq] at h

theorem hex6Exec_inv (L : Str) (d1 d2 d3 d4 d5 d6 : Nat)
    (h : hex6Exec L = some (d1, d2, d3, d4, d5, d6)) :
    L = [35, d1, d2, d3, d4, d5, d6] ∧
    (isHexDig d1 && isHexDig d2 && isHexDig d3 && isHexDig d4 && isHexDig d5 &&
      isHexDig d6) = true := by
  rw [hex6Exec.eq_def] at h
  split at h
  · split at h
    · next hcond =>
      simp only [Option.some.injEq, Prod.mk.injEq] at h
      obtain ⟨h1, h2, h3, h4, h5, h6⟩ := h
      subst h1; subst h2; subst h3; subst h4; subst h5; subst h6
      exact ⟨rfl, hcond⟩
    · simp at h
  · simp at h

theorem hex8Exec_inv (L : Str) (d1 d2 d3 d4 d5 d6 d7 d8 : Nat)
    (h : hex8Exec L = some (d1, d2, d3, d4, d5, d6, d7, d8)) :
    L = [35, d1, d2, d3, d4, d5, d6, d7, d8] ∧
    (isHexDig d1 && isHexDig d2 && isHexDig d3 && isHexDig d4 && isHexDig d5 &&
      isHexDig d6 && isHexDig d7 && isHexDig d8) = true := by
  rw [hex8Exec.eq_def] at h
  split at h
  · split at h
    · next hcond =>
      simp only [Option.some.injEq, Prod.mk.injEq] at h
      obtain ⟨h1, h2, h3, h4, h5, h6, h7, h8⟩ := h
      subst h1; subst h2; subst h3; subst h4; subst h5; subst h6; subst h7; subst h8
      exact ⟨rfl, hcond⟩
    · simp at h
  · simp at h

/-- One table entry is round-trip clean: it is the `transparent` marker,
or re-encoding its decoded channels gives back the stored literal and the
literal is seven characters long. -/
def nombradoOk (p : Str × Str) : Bool :=
  p.2 == codes "transparent" ||
    (rgbAHex (hexARgb p.2).1 (hexARgb p.2).2.1 (hexARgb p.2).2.2 (some (.val 1)) == p.2 &&
     p.2.length == 7)

section
attribute [local semireducible] Rat.add Rat.mul Rat.inv Rat.sub

set_option maxRecDepth 4096 in
theorem nombrado_todos_ok : NAMED_COLORS.all nombradoOk = true := by decide

end

/-- The inputs excluded from the amended C3 round trip: an eight-digit
hex color whose alpha byte is `ff`, where the source stores the verbatim
eight-digit hex although the computed alpha equals one. -/
def esHex8AlphaFF (valor : Str) : Bool :=
  match hex8Exec (lowerStr (trimStr valor)) with
  | some (_, _, _, _, _, _, d7, d8) => pairVal d7 d8 == 255
  | none => false

section
attribute [local semireducible] Rat.add Rat.mul Rat.inv Rat.sub

set_option maxHeartbeats 1000000 in
/-- C3 (amended): for every input accepted by `parsearColor`, except an
eight-digit hex whose alpha byte is `ff`, re-encoding the returned
channels with `rgbAHex (r, g, b, some a)` yields exactly the stored hex
field, and the hex field carries an alpha byte (length nine) only when
`a < 1`.  The excluded case breaks both parts: the source stores the
verbatim eight-digit hex while computing `a = 1`. -/
theorem colores_ida_y_vuelta (valor : Str) (c : ColorInfo)
    (hp : parsearColor valor = some c) (hEx : esHex8AlphaFF valor = false) :
    rgbAHex c.r c.g c.b (some c.a) = c.hex ∧
    (c.hex.length = 9 → c.a.ltUno = true) := by
  simp only [parsearColor, rgbExec, rgbaExec, rgbModernExec, hslExec, hslaExec,
    hslModernExec] at hp
  cases hN : buscarNombrado (lowerStr (trimStr valor)) with
  | some hx =>
    simp only [hN] at hp
    split at hp
    · obtain rfl := Option.some.inj hp
      refine ⟨?_, ?_⟩
      · show rgbAHex 0 0 0 (some (.val 0)) = codes "#00000000"
        decide
      · intro h9
        show JsNum.ltUno (.val 0) = true
        decide
    · next hne =>
      obtain rfl := Option.some.inj hp
      unfold buscarNombrado at hN
      obtain ⟨p, hfind, hp2⟩ := Option.map_eq_some'.mp hN
      have hmem := List.mem_of_find?_eq_some hfind
      have hP := List.all_eq_true.mp nombrado_todos_ok p hmem
      simp only [nombradoOk, Bool.or_eq_true, Bool.and_eq_true, beq_iff_eq] at hP
      rw [hp2] at hP
      rcases hP with htr2 | ⟨hrt, hlen⟩
      · exact absurd htr2 hne
      · refine ⟨hrt, ?_⟩
        intro h9
        have h9b : hx.length = 9 := h9
        omega
  | none =>
    simp only [hN] at hp
    cases h3s : hex3Exec (lowerStr (trimStr valor)) with
    | some t =>
      obtain ⟨d1, d2, d3⟩ := t
      simp only [h3s] at hp
      obtain rfl := Option.some.inj hp
      refine ⟨rgbAHex_uno _ _ _, ?_⟩
      intro h9
      have h9b : (rgbAHex ((pairVal d1 d1 : ℚ)) ((pairVal d2 d2 : ℚ))
          ((pairVal d3 d3 : ℚ)) none).length = 9 := h9
      rw [rgbAHex_length_none] at h9b
      omega
    | none =>
      simp only [h3s] at hp
      cases h4s : hex4Exec (lowerStr (trimStr valor)) with
      | some t =>
        obtain ⟨d1, d2, d3, d4⟩ := t
        simp only [h4s] at hp
        obtain rfl := Option.some.inj hp
        exact ⟨rfl, fun h9 => rgbAHex_nueve _ _ _ _ h9⟩
      | none =>
        simp only [h4s] at hp
        cases h6s : hex6Exec (lowerStr (trimStr valor)) with
        | some t =>
          obtain ⟨d1, d2, d3, d4, d5, d6⟩ := t
          simp only [h6s] at hp
          obtain rfl := Option.some.inj hp
          obtain ⟨hL, hdig⟩ := hex6Exec_inv _ _ _ _ _ _ _ h6s
          have hdigP := hdig
          simp only [Bool.and_eq_true] at hdigP
          obtain ⟨⟨⟨⟨⟨q1, q2⟩, q3⟩, q4⟩, q5⟩, q6⟩ := hdigP
          have hm1 : isLowerHex d1 = true := isLowerHex_en _ _ (by rw [hL]; simp) q1
          have hm2 : isLowerHex d2 = true := isLowerHex_en _ _ (by rw [hL]; simp) q2
          have hm3 : isLowerHex d3 = true := isLowerHex_en _ _ (by rw [hL]; simp) q3
          have hm4 : isLowerHex d4 = true := isLowerHex_en _ _ (by rw [hL]; simp) q4
          have hm5 : isLowerHex d5 = true := isLowerHex_en _ _ (by rw [hL]; simp) q5
          have hm6 : isLowerHex d6 = true := isLowerHex_en _ _ (by rw [hL]; simp) q6
          refine ⟨?_, ?_⟩
          · show rgbAHex (hexARgb (35 :: [d1, d2, d3, d4, d5, d6])).1
                (hexARgb (35 :: [d1, d2, d3, d4, d5, d6])).2.1
                (hexARgb (35 :: [d1, d2, d3, d4, d5, d6])).2.2
                (some (.val 1)) = 35 :: [d1, d2, d3, d4, d5, d6]
            rw [rgbAHex_uno]
            have hA : hexARgb (35 :: [d1, d2, d3, d4, d5, d6]) =
                ((pairVal d1 d2 : ℚ), (pairVal d3 d4 : ℚ), (pairVal d5 d6 : ℚ)) := by
              simp only [hexARgb]
              rw [if_pos hdig]
            rw [hA]
            show rgbAHex ((pairVal d1 d2 : ℚ)) ((pairVal d3 d4 : ℚ))
                ((pairVal d5 d6 : ℚ)) none = 35 :: [d1, d2, d3, d4, d5, d6]
            simp only [rgbAHex]
            rw [toHexPair_pairVal d1 d2 hm1 hm2, toHexPair_pairVal d3 d4 hm3 hm4,
              toHexPair_pairVal d5 d6 hm5 hm6]
            rfl
          · intro h9
            have h9b : (35 :: [d1, d2, d3, d4, d5, d6] : Str).length = 9 := h9
            simp at h9b
        | none =>
          simp only [h6s] at hp
          cases h8s : hex8Exec (lowerStr (trimStr valor)) with
          | some t =>
            obtain ⟨d1, d2, d3, d4, d5, d6, d7, d8⟩ := t
            simp only [h8s] at hp
            obtain rfl := Option.some.inj hp
            obtain ⟨hL, hdig⟩ := hex8Exec_inv _ _ _ _ _ _ _ _ _ h8s
            simp only [Bool.and_eq_true] at hdig
            obtain ⟨⟨⟨⟨⟨⟨⟨q1, q2⟩, q3⟩, q4⟩, q5⟩, q6⟩, q7⟩, q8⟩ := hdig
            have hm1 : isLowerHex d1 = true := isLowerHex_en _ _ (by rw [hL]; simp) q1
            have hm2 : isLowerHex d2 = true := isLowerHex_en _ _ (by rw [hL]; simp) q2
            have hm3 : isLowerHex d3 = true := isLowerHex_en _ _ (by rw [hL]; simp) q3
            have hm4 : isLowerHex d4 = true := isLowerHex_en _ _ (by rw [hL]; simp) q4
            have hm5 : isLowerHex d5 = true := isLowerHex_en _ _ (by rw [hL]; simp) q5
            have hm6 : isLowerHex d6 = true := isLowerHex_en _ _ (by rw [hL]; simp) q6
            have hm7 : isLowerHex d7 = true := isLowerHex_en _ _ (by rw [hL]; simp) q7
            have hm8 : isLowerHex d8 = true := isLowerHex_en _ _ (by rw [hL]; simp) q8
            simp only [esHex8AlphaFF, h8s] at hEx
            rw [beq_eq_false_iff_ne] at hEx
            have e7 := hexDigitVal_le d7 q7
            have e8 := hexDigitVal_le d8 q8
            have hpair78 : pairVal d7 d8 = 16 * hexDigitVal d7 + hexDigitVal d8 := rfl
            have hlt : ((pairVal d7 d8 : ℚ)) / 255 < 1 := by
              rw [div_lt_one (by norm_num)]
              exact_mod_cast (by omega : pairVal d7 d8 < 255)
            refine ⟨?_, ?_⟩
            · show rgbAHex ((pairVal d1 d2 : ℚ)) ((pairVal d3 d4 : ℚ))
                  ((pairVal d5 d6 : ℚ))
                  (some (.val ((pairVal d7 d8 : ℚ) / 255))) =
                  35 :: [d1, d2, d3, d4, d5, d6, d7, d8]
              simp only [rgbAHex]
              rw [if_pos hlt]
              have hmul : ((pairVal d7 d8 : ℚ) / 255) * 255 = ((pairVal d7 d8 : ℚ)) :=
                div_mul_cancel₀ _ (by norm_num)
              rw [hmul, jsRound_nat, Int.cast_natCast]
              rw [toHexPair_pairVal d1 d2 hm1 hm2, toHexPair_pairVal d3 d4 hm3 hm4,
                toHexPair_pairVal d5 d6 hm5 hm6, toHexPair_pairVal d7 d8 hm7 hm8]
              rfl
            · intro h9
              show JsNum.ltUno (.val ((pairVal d7 d8 : ℚ) / 255)) = true
              simp only [JsNum.ltUno, decide_eq_true_eq]
              exact hlt
          | none =>
            simp only [h8s] at hp
            cases hr1 : rgbCore (lowerStr valor) with
            | some t =>
              obtain ⟨n1, n2, n3⟩ := t
              simp only [hr1] at hp
              obtain rfl := Option.some.inj hp
              refine ⟨rgbAHex_uno _ _ _, ?_⟩
              intro h9
              have h9b : (rgbAHex ((n1 : ℚ)) ((n2 : ℚ)) ((n3 : ℚ)) none).length = 9 := h9
              rw [rgbAHex_length_none] at h9b
              omega
            | none =>
              simp only [hr1] at hp
              cases hr2 : rgbaCore (lowerStr valor) with
              | some t =>
                obtain ⟨n1, n2, n3, crudo⟩ := t
                simp only [hr2] at hp
                obtain rfl := Option.some.inj hp
                exact ⟨rfl, fun h9 => rgbAHex_nueve _ _ _ _ h9⟩
              | none =>
                simp only [hr2] at hp
                cases hr3 : rgbModernCore (lowerStr valor) with
                | some t =>
                  obtain ⟨n1, n2, n3, al⟩ := t
                  simp only [hr3] at hp
                  obtain rfl := Option.some.inj hp
                  exact ⟨rfl, fun h9 => rgbAHex_nueve _ _ _ _ h9⟩
                | none =>
                  simp only [hr3] at hp
                  cases hs1 : hslCore (lowerStr valor) with
                  | some t =>
                    obtain ⟨n1, n2, n3⟩ := t
                    simp only [hs1] at hp
                    obtain rfl := Option.some.inj hp
                    refine ⟨rgbAHex_uno _ _ _, ?_⟩
                    intro h9
                    have h9b : (rgbAHex (hslARgb n1 n2 n3).1 (hslARgb n1 n2 n3).2.1
                        (hslARgb n1 n2 n3).2.2 none).length = 9 := h9
                    rw [rgbAHex_length_none] at h9b
                    omega
                  | none =>
                    simp only [hs1] at hp
                    cases hs2 : hslaCore (lowerStr valor) with
                    | some t =>
                      obtain ⟨n1, n2, n3, crudo⟩ := t
                      simp only [hs2] at hp
                      obtain rfl := Option.some.inj hp
                      exact ⟨rfl, fun h9 => rgbAHex_nueve _ _ _ _ h9⟩
                    | none =>
                      simp only [hs2] at hp
                      cases hs3 : hslModernCore (lowerStr valor) with
                      | some t =>
                        obtain ⟨n1, n2, n3, al⟩ := t
                        simp only [hs3] at hp
                        obtain rfl := Option.some.inj hp
                        exact ⟨rfl, fun h9 => rgbAHex_nueve _ _ _ _ h9⟩
                      | none =>
                        simp only [hs3] at hp
                        simp at hp

/-- Witness for the amended C3 round trip at `#fff`. -/
theorem colores_ida_y_vuelta_testigo :
    rgbAHex 255 255 255 (some (.val 1)) = codes "#ffffff" ∧
    ((codes "#ffffff").length = 9 → JsNum.ltUno (.val 1) = true) :=
  colores_ida_y_vuelta (codes "#fff")
    { formato := .Hex, r := 255, g := 255, b := 255, a := .val 1,
      original := codes "#fff", hex := codes "#ffffff" }
    (by decide) (by decide)

/-- C3 counterexample: for `#ff0000ff` the parser computes `a = 1` yet
stores the verbatim nine-character hex (alpha byte `ff` kept although `a`
is not below one), and re-encoding the channels with `rgbAHex` gives
`#ff0000`, not the stored hex field. -/
theorem colores_ida_y_vuelta_contraejemplo :
    (parsearColor (codes "#ff0000ff")).map
        (fun c => (rgbAHex c.r c.g c.b (some c.a), c.hex, JsNum.ltUno c.a)) =
      some (codes "#ff0000", codes "#ff0000ff", false) ∧
    (codes "#ff0000ff").length = 9 :=
  ⟨by decide, by decide⟩

end

end VarSense
